import Mathlib

/-!
Verification of the pykyadet reverse-mode automatic-differentiation engine
(`src/pykyadet.py`) against its natural-language specification.

The Python program builds a DAG of `Var` nodes (leaf variables and
operation nodes), applies local algebraic rewrites in the smart
constructors (`v_add`, `v_sub`, `v_mul`, `v_div`, `v_pow`, `v_neg`, `log`),
and propagates adjoints with `Var.grad` over a LIFO worklist.

Shallow embedding used here:

* The Python object heap is an append-only `Store α` (a list of `Node α`);
  a Python reference is the node's index; `id(x) == id(y)` is index
  equality.  Operands (`larg`, `rarg`, `arg`, `adj`) are `Operand α`:
  either a reference to a node or an embedded numeric constant, mirroring
  Python values that are either `Var` instances or bare floats.
* Python `isinstance(x, OpMulVar)` etc. becomes a check of the stored
  operator tag (`Op`); the per-instance bound chain method (`chain_vv`,
  `chain_vf`, `chain_fv`) is recovered from the ref/const tags of the
  stored operands, exactly as the constructors bound it.
* Scalar values are a `Field α` together with a `Transc α` record for the
  external `math` functions (`log`, `**`, `sin`, `cos`); partial operations
  (`math.log` of a non-positive number, division by zero, invalid power)
  return `Except Err α`, mirroring the Python exceptions.  `Err.fuelOut`
  is an artefact of the embedding only: the mutually recursive rewrite
  rules recurse on sub-operands, which the embedding bounds with an
  explicit fuel parameter; all theorems supply ample fuel.
* Python evaluation order (left-to-right operand evaluation, augmented
  assignment reading the target after evaluating the right-hand side) is
  preserved by sequencing in the `Except` monad.
-/

namespace Pykyadet

/-- Exceptions of the Python program: `Exception("invalid type of argument")`
from the binary constructors, `ValueError` (math domain error) from
`math.log`/`**`, `ZeroDivisionError` from `/`, `AttributeError` from
accessing `.val`/`.adj` on a bare float, and the embedding-only fuel
exhaustion marker. -/
inductive Err
  | invalidOperand
  | domainError
  | zeroDivision
  | attributeError
  | fuelOut
deriving DecidableEq, Repr

/-- Operator tag: the Python class of the node (`Var`, `OpNegVar`,
`OpLogVar`, `OpSinVar`, `OpCosVar`, `OpAddVar`, `OpSubVar`, `OpMulVar`,
`OpDivVar`, `OpPowVar`).  `var` is a leaf variable. -/
inductive Op
  | var
  | neg
  | log
  | sin
  | cos
  | add
  | sub
  | mul
  | div
  | pow
deriving DecidableEq, Repr

/-- An operand slot: a shared reference to another node (a Python `Var`)
or an embedded numeric constant (a Python float). -/
inductive Operand (α : Type)
  | const (c : α)
  | ref (i : Nat)
deriving DecidableEq, Repr

/-- Operand shape of a node: leaves have no operands, `OpMonoVar`
subclasses store `self.arg`, `OpBinVar` subclasses store `self.larg` and
`self.rarg` (iterated in that order by `args.values()`). -/
inductive Shape (α : Type)
  | leaf
  | mono (arg : Operand α)
  | bin (l r : Operand α)
deriving DecidableEq, Repr

/-- A graph node, the embedding of a `Var` instance: forward value
`self.val`, adjoint accumulator `self.adj` (a node reference or a bare
number), operator tag, operand shape, and the `self.chain_executed`
traversal flag. -/
structure Node (α : Type) where
  val : α
  adj : Operand α
  op : Op
  shape : Shape α
  chain_executed : Bool
deriving DecidableEq, Repr

/-- The heap: nodes are allocated append-only, a reference is an index. -/
abbrev Store (α : Type) := List (Node α)

variable {α : Type} [Field α] [DecidableEq α]

/-- Placeholder returned by lookups of dangling references; constructed
stores never contain dangling references. -/
def dummyNode : Node α := ⟨0, .const 0, .var, .leaf, false⟩

/-- Dereference a node. -/
def getN (σ : Store α) (i : Nat) : Node α := σ.getD i dummyNode

/-- Mutate `node.adj` in place. -/
def setAdj (σ : Store α) (i : Nat) (v : Operand α) : Store α :=
  σ.set i { getN σ i with adj := v }

/-- Mutate `node.chain_executed` in place. -/
def setExec (σ : Store α) (i : Nat) (b : Bool) : Store α :=
  σ.set i { getN σ i with chain_executed := b }

/-- Read `node.adj`. -/
def adjOf (σ : Store α) (i : Nat) : Operand α := (getN σ i).adj

/-- The list `self.args.values()` in iteration order: `[]` for a leaf,
`[arg]` for a unary node, `[larg, rarg]` (left/base first) for a binary
node. -/
def argsL (n : Node α) : List (Operand α) :=
  match n.shape with
  | .leaf => []
  | .mono a => [a]
  | .bin l r => [l, r]

/-- Test whether an operand is a `Var` reference carrying the given
operator tag, the embedding of `isinstance(x, OpMulVar)` and of
`type(x) == OpMulVar` (each operator class is final, so the two
agree). -/
def isOp (σ : Store α) (x : Operand α) (o : Op) : Bool :=
  match x with
  | .ref i => (getN σ i).op = o
  | .const _ => false

/-- Embedding of `not isinstance(x, Var) and x == c`: the check is made
only on bare floats, short-circuiting on references. -/
def isConstEq (x : Operand α) (c : α) : Bool :=
  match x with
  | .const a => a = c
  | .ref _ => false

/-- Read `x.larg` (junk on non-binary nodes; every use is guarded by an
operator-tag test, as in the Python source). -/
def largO (σ : Store α) (x : Operand α) : Operand α :=
  match x with
  | .ref i =>
    match (getN σ i).shape with
    | .bin l _ => l
    | _ => .const 0
  | .const _ => .const 0

/-- Read `x.rarg` (junk on non-binary nodes). -/
def rargO (σ : Store α) (x : Operand α) : Operand α :=
  match x with
  | .ref i =>
    match (getN σ i).shape with
    | .bin _ r => r
    | _ => .const 0
  | .const _ => .const 0

/-- Read `x.arg` of a unary node (junk on other nodes). -/
def margO (σ : Store α) (x : Operand α) : Operand α :=
  match x with
  | .ref i =>
    match (getN σ i).shape with
    | .mono a => a
    | _ => .const 0
  | .const _ => .const 0

/-- Structural equality `Var.__eq__` (pykyadet.py lines 135-143), lifted
to operands so that the mixed `Var`/float comparisons in the rewrite
rules are covered: two floats compare by value, a float never equals a
`Var`, two `Var`s of different classes are unequal, unary nodes compare
their `arg`s, binary nodes compare `larg` and `rarg` pointwise, and two
leaves are equal exactly when they are the same object (`id` equality).
The Python recursion terminates because constructed graphs are acyclic;
the embedding bounds the recursion depth by a fuel parameter, which
callers set larger than the store size (reference chains in constructed
stores strictly decrease, so this fuel is never exhausted on them). -/
def dynEqF (σ : Store α) : Nat → Operand α → Operand α → Bool
  | _, .const a, .const b => a = b
  | _, .const _, .ref _ => false
  | _, .ref _, .const _ => false
  | 0, .ref _, .ref _ => false
  | fuel + 1, .ref i, .ref j =>
    let n := getN σ i
    let m := getN σ j
    if n.op = m.op then
      match n.shape, m.shape with
      | .leaf, .leaf => i = j
      | .mono a, .mono b => dynEqF σ fuel a b
      | .bin l1 r1, .bin l2 r2 => dynEqF σ fuel l1 l2 && dynEqF σ fuel r1 r2
      | _, _ => false
    else false

/-- Structural equality with fuel adequate for any store built by the
constructors. -/
def dynEq (σ : Store α) (a b : Operand α) : Bool :=
  dynEqF σ (σ.length + 1) a b

/-- External scalar functions: `**` (Python float power, which raises on
undefined combinations), `math.log` (raises `ValueError` on non-positive
arguments), `math.sin`, `math.cos`. -/
structure Transc (α : Type) where
  pow : α → α → Except Err α
  log : α → Except Err α
  sin : α → α
  cos : α → α

/-- Python float division: `ZeroDivisionError` on a zero divisor. -/
def divE (a b : α) : Except Err α :=
  if b = 0 then .error .zeroDivision else .ok (a / b)

/-- Allocation of a fresh binary node (`OpBinVar.__init__` via the
`OpAddVar`/... constructors): the forward value is computed eagerly from
`larg.val`/`rarg.val` (or the bare float), after the constructor's
`isinstance` case split rejects two non-`Var` operands with
`Exception("invalid type of argument")`. -/
def mkBin (σ : Store α) (o : Op) (f : α → α → Except Err α) (l r : Operand α) :
    Except Err (Store α × Operand α) :=
  match l, r with
  | .const _, .const _ => .error .invalidOperand
  | _, _ => do
    let lv := match l with | .ref i => (getN σ i).val | .const c => c
    let rv := match r with | .ref j => (getN σ j).val | .const c => c
    let v ← f lv rv
    .ok (σ ++ [⟨v, .const 0, o, .bin l r, false⟩], .ref σ.length)

/-- Allocation of a fresh unary node (`OpMonoVar.__init__` via
`OpNegVar`/`OpLogVar`/...): `arg.val` is read first (an `AttributeError`
if the argument is a bare float), then the forward value is computed
eagerly (where `math.log` may raise). -/
def mkMono (σ : Store α) (o : Op) (f : α → Except Err α) (x : Operand α) :
    Except Err (Store α × Operand α) :=
  match x with
  | .const _ => .error .attributeError
  | .ref i => do
    let v ← f (getN σ i).val
    .ok (σ ++ [⟨v, .const 0, o, .mono x, false⟩], .ref σ.length)

/-- Call tags for the mutually recursive constructor layer: `v*` are the
entry points `v_add`, `v_sub`, `v_mul`, `v_div`, `v_pow`, `v_neg` and the
free function `log`; `d*` are Python's operator dispatch (`+`, `-`, `*`,
`/`, `**`, unary `-`), which performs plain float arithmetic when both
operands are bare floats and otherwise lands in the corresponding `v*`
entry point through `__add__`/`__radd__` and friends. -/
inductive EK
  | vadd
  | vsub
  | vmul
  | vdiv
  | vpow
  | vneg
  | vlog
  | dadd
  | dsub
  | dmul
  | ddiv
  | dpow
  | dneg
deriving DecidableEq, Repr

/-- The simplifying-constructor layer of pykyadet.py (lines 256-259,
286-290, 428-456, 515-544, 603-623, 685-693, 753-761), one mutually
recursive function indexed by the call tag.  Each branch mirrors the
source's sequential `if ... return` chain: first match wins, falling
through to plain node construction.  Unary calls ignore the second
operand.  The fuel bounds the recursion on sub-operands; all recursive
calls strictly decrease it. -/
def entry (T : Transc α) : Nat → EK → Store α → Operand α → Operand α →
    Except Err (Store α × Operand α)
  | 0, _, _, _, _ => .error .fuelOut
  | fuel + 1, k, σ, l, r =>
    match k with
    | .dadd =>
      match l, r with
      | .const a, .const b => .ok (σ, .const (a + b))
      | _, _ => entry T fuel .vadd σ l r
    | .dsub =>
      match l, r with
      | .const a, .const b => .ok (σ, .const (a - b))
      | _, _ => entry T fuel .vsub σ l r
    | .dmul =>
      match l, r with
      | .const a, .const b => .ok (σ, .const (a * b))
      | _, _ => entry T fuel .vmul σ l r
    | .ddiv =>
      match l, r with
      | .const a, .const b => do
        let v ← divE a b
        .ok (σ, .const v)
      | _, _ => entry T fuel .vdiv σ l r
    | .dpow =>
      match l, r with
      | .const a, .const b => do
        let v ← T.pow a b
        .ok (σ, .const v)
      | _, _ => entry T fuel .vpow σ l r
    | .dneg =>
      match l with
      | .const a => .ok (σ, .const (-a))
      | .ref _ => entry T fuel .vneg σ l l
    | .vneg =>
      match l with
      | .ref i =>
        if (getN σ i).op = .neg then .ok (σ, margO σ l)
        else mkMono σ .neg (fun v => .ok (-v)) l
      | .const _ => mkMono σ .neg (fun v => .ok (-v)) l
    | .vlog =>
      match l with
      | .ref i =>
        if (getN σ i).op = .pow then do
          let (σ1, lg) ← mkMono σ .log T.log (largO σ l)
          entry T fuel .dmul σ1 (rargO σ l) lg
        else mkMono σ .log T.log l
      | .const _ => mkMono σ .log T.log l
    | .vadd =>
      if isConstEq l 0 then .ok (σ, r)
      else if isConstEq r 0 then .ok (σ, l)
      else if isOp σ l .mul && isOp σ r .mul && dynEq σ (largO σ l) (largO σ r) then do
        let (σ1, s) ← entry T fuel .dadd σ (rargO σ l) (rargO σ r)
        entry T fuel .dmul σ1 (largO σ l) s
      else if isOp σ l .mul && isOp σ r .mul && dynEq σ (rargO σ l) (largO σ r) then do
        let (σ1, s) ← entry T fuel .dadd σ (largO σ l) (rargO σ r)
        entry T fuel .dmul σ1 (rargO σ l) s
      else if isOp σ l .mul && isOp σ r .mul && dynEq σ (largO σ l) (rargO σ r) then do
        let (σ1, s) ← entry T fuel .dadd σ (rargO σ l) (largO σ r)
        entry T fuel .dmul σ1 (largO σ l) s
      else if isOp σ l .mul && isOp σ r .mul && dynEq σ (rargO σ l) (rargO σ r) then do
        let (σ1, s) ← entry T fuel .dadd σ (largO σ l) (largO σ r)
        entry T fuel .dmul σ1 (rargO σ l) s
      else if isOp σ l .mul && dynEq σ (largO σ l) r then do
        let (σ1, s) ← entry T fuel .dadd σ (rargO σ l) (.const 1)
        entry T fuel .dmul σ1 (largO σ l) s
      else if isOp σ l .mul && dynEq σ (rargO σ l) r then do
        let (σ1, s) ← entry T fuel .dadd σ (largO σ l) (.const 1)
        entry T fuel .dmul σ1 (rargO σ l) s
      else if isOp σ r .mul && dynEq σ l (largO σ r) then do
        let (σ1, s) ← entry T fuel .dadd σ (rargO σ r) (.const 1)
        entry T fuel .dmul σ1 l s
      else if isOp σ r .mul && dynEq σ l (rargO σ r) then do
        let (σ1, s) ← entry T fuel .dadd σ (largO σ r) (.const 1)
        entry T fuel .dmul σ1 l s
      else if dynEq σ l r then entry T fuel .dmul σ l (.const 2)
      else if isOp σ l .log && isOp σ r .log then do
        let (σ1, p) ← entry T fuel .dmul σ (margO σ l) (margO σ r)
        entry T fuel .vlog σ1 p p
      else mkBin σ .add (fun a b => .ok (a + b)) l r
    | .vsub =>
      if isConstEq l 0 then entry T fuel .dneg σ r r
      else if isConstEq r 0 then .ok (σ, l)
      else if isOp σ l .log && isOp σ r .log then do
        let (σ1, p) ← entry T fuel .dsub σ (margO σ l) (margO σ r)
        entry T fuel .vlog σ1 p p
      else if isOp σ l .mul && isOp σ r .mul && dynEq σ (largO σ l) (largO σ r) then do
        let (σ1, s) ← entry T fuel .dsub σ (rargO σ l) (rargO σ r)
        entry T fuel .dmul σ1 (largO σ l) s
      else if isOp σ l .mul && isOp σ r .mul && dynEq σ (rargO σ l) (largO σ r) then do
        let (σ1, s) ← entry T fuel .dsub σ (largO σ l) (rargO σ r)
        entry T fuel .dmul σ1 (rargO σ l) s
      else if isOp σ l .mul && isOp σ r .mul && dynEq σ (largO σ l) (rargO σ r) then do
        let (σ1, s) ← entry T fuel .dsub σ (rargO σ l) (largO σ r)
        entry T fuel .dmul σ1 (largO σ l) s
      else if isOp σ l .mul && isOp σ r .mul && dynEq σ (rargO σ l) (rargO σ r) then do
        let (σ1, s) ← entry T fuel .dsub σ (largO σ l) (largO σ r)
        entry T fuel .dmul σ1 (rargO σ l) s
      else if isOp σ l .mul && dynEq σ (largO σ l) r then do
        let (σ1, s) ← entry T fuel .dsub σ (rargO σ l) (.const 1)
        entry T fuel .dmul σ1 (largO σ l) s
      else if isOp σ l .mul && dynEq σ (rargO σ l) r then do
        let (σ1, s) ← entry T fuel .dsub σ (largO σ l) (.const 1)
        entry T fuel .dmul σ1 (rargO σ l) s
      else if isOp σ r .mul && dynEq σ l (largO σ r) then do
        let (σ1, s) ← entry T fuel .dsub σ (.const 1) (rargO σ r)
        entry T fuel .dmul σ1 l s
      else if isOp σ r .mul && dynEq σ l (rargO σ r) then do
        let (σ1, s) ← entry T fuel .dsub σ (.const 1) (largO σ r)
        entry T fuel .dmul σ1 l s
      else if dynEq σ l r then .ok (σ, .const 0)
      else mkBin σ .sub (fun a b => .ok (a - b)) l r
    | .vmul =>
      if isConstEq l 0 then .ok (σ, .const 0)
      else if isConstEq r 0 then .ok (σ, .const 0)
      else if isConstEq r 1 then .ok (σ, l)
      else if isConstEq l 1 then .ok (σ, r)
      else if isConstEq l (-1) then entry T fuel .dneg σ r r
      else if isConstEq r (-1) then entry T fuel .dneg σ l l
      else if isOp σ l .pow && isOp σ r .pow && dynEq σ (largO σ l) (largO σ r) then do
        let (σ1, s) ← entry T fuel .dadd σ (rargO σ l) (rargO σ r)
        entry T fuel .dpow σ1 (largO σ l) s
      else if isOp σ l .pow && dynEq σ (largO σ l) r then do
        let (σ1, s) ← entry T fuel .dadd σ (rargO σ l) (.const 1)
        entry T fuel .dpow σ1 (largO σ l) s
      else if isOp σ r .pow && dynEq σ l (largO σ r) then do
        let (σ1, s) ← entry T fuel .dadd σ (rargO σ r) (.const 1)
        entry T fuel .dpow σ1 (largO σ r) s
      else mkBin σ .mul (fun a b => .ok (a * b)) l r
    | .vdiv =>
      if isConstEq l 0 then .ok (σ, .const 0)
      else if isConstEq r 1 then .ok (σ, l)
      else if isOp σ l .pow && isOp σ r .pow && dynEq σ (largO σ l) (largO σ r) then do
        let (σ1, s) ← entry T fuel .dsub σ (rargO σ l) (rargO σ r)
        entry T fuel .dpow σ1 (largO σ l) s
      else mkBin σ .div divE l r
    | .vpow =>
      if isConstEq r 1 then .ok (σ, l)
      else if isConstEq r 0 then .ok (σ, .const 1)
      else if isOp σ l .pow then do
        let (σ1, s) ← entry T fuel .dmul σ (rargO σ l) r
        entry T fuel .dpow σ1 (largO σ l) s
      else mkBin σ .pow T.pow l r

/-- Entry point `v_add` (pykyadet.py line 428). -/
def v_add (T : Transc α) (fuel : Nat) (σ : Store α) (l r : Operand α) :
    Except Err (Store α × Operand α) :=
  entry T fuel .vadd σ l r

/-- Entry point `v_sub` (line 515). -/
def v_sub (T : Transc α) (fuel : Nat) (σ : Store α) (l r : Operand α) :
    Except Err (Store α × Operand α) :=
  entry T fuel .vsub σ l r

/-- Entry point `v_mul` (line 603). -/
def v_mul (T : Transc α) (fuel : Nat) (σ : Store α) (l r : Operand α) :
    Except Err (Store α × Operand α) :=
  entry T fuel .vmul σ l r

/-- Entry point `v_div` (line 685). -/
def v_div (T : Transc α) (fuel : Nat) (σ : Store α) (l r : Operand α) :
    Except Err (Store α × Operand α) :=
  entry T fuel .vdiv σ l r

/-- Entry point `v_pow` (line 753). -/
def v_pow (T : Transc α) (fuel : Nat) (σ : Store α) (l r : Operand α) :
    Except Err (Store α × Operand α) :=
  entry T fuel .vpow σ l r

/-- Entry point `v_neg` (line 256). -/
def v_neg (T : Transc α) (fuel : Nat) (σ : Store α) (x : Operand α) :
    Except Err (Store α × Operand α) :=
  entry T fuel .vneg σ x x

/-- Entry point `log` (line 286). -/
def logV (T : Transc α) (fuel : Nat) (σ : Store α) (x : Operand α) :
    Except Err (Store α × Operand α) :=
  entry T fuel .vlog σ x x

/-- Entry point `sin` (line 312): a plain `OpSinVar` allocation. -/
def sinV (T : Transc α) (σ : Store α) (x : Operand α) :
    Except Err (Store α × Operand α) :=
  mkMono σ .sin (fun v => .ok (T.sin v)) x

/-- Entry point `cos` (line 335): a plain `OpCosVar` allocation. -/
def cosV (T : Transc α) (σ : Store α) (x : Operand α) :
    Except Err (Store α × Operand α) :=
  mkMono σ .cos (fun v => .ok (T.cos v)) x

/-- Construction of a leaf, `Var.__init__`. -/
def leaf (σ : Store α) (v : α) : Store α × Operand α :=
  (σ ++ [⟨v, .const 0, .var, .leaf, false⟩], .ref σ.length)

/-- The chain-rule procedure bound to node `i` at construction time
(`Var.chain` is a no-op on leaves; each operator class binds `chain_vv`,
`chain_vf` or `chain_fv` according to which operands are `Var`s, which
the stored ref/const tags record).  Each accumulation `x.adj += e`
evaluates `e` left-to-right (allocating any intermediate nodes), then
reads `x.adj` and stores the sum, exactly as Python's augmented
assignment does; `fuel` feeds the constructor layer.  A unary node whose
argument is a bare float cannot be constructed, so that branch reports
the `AttributeError` Python would raise on `float.adj`. -/
def chain (T : Transc α) (fuel : Nat) (σ : Store α) (i : Nat) :
    Except Err (Store α) :=
  let n := getN σ i
  match n.op, n.shape with
  | .var, _ => .ok σ
  | .neg, .mono (.ref j) => do
    -- self.arg.adj -= self.adj
    let (σ1, u) ← entry T fuel .dsub σ (adjOf σ j) (adjOf σ i)
    .ok (setAdj σ1 j u)
  | .log, .mono (.ref j) => do
    -- self.arg.adj += self.adj / self.arg
    let (σ1, t) ← entry T fuel .ddiv σ (adjOf σ i) (.ref j)
    let (σ2, u) ← entry T fuel .dadd σ1 (adjOf σ1 j) t
    .ok (setAdj σ2 j u)
  | .sin, .mono (.ref j) => do
    -- self.arg.adj += self.adj * cos(self.arg)
    let ad := adjOf σ i
    let (σ1, c) ← cosV T σ (.ref j)
    let (σ2, t) ← entry T fuel .dmul σ1 ad c
    let (σ3, u) ← entry T fuel .dadd σ2 (adjOf σ2 j) t
    .ok (setAdj σ3 j u)
  | .cos, .mono (.ref j) => do
    -- self.arg.adj -= self.adj * sin(self.arg)
    let ad := adjOf σ i
    let (σ1, s) ← sinV T σ (.ref j)
    let (σ2, t) ← entry T fuel .dmul σ1 ad s
    let (σ3, u) ← entry T fuel .dsub σ2 (adjOf σ2 j) t
    .ok (setAdj σ3 j u)
  | .add, .bin (.ref a) (.ref b) => do
    -- chain_vv: self.larg.adj += self.adj; self.rarg.adj += self.adj
    let (σ1, u1) ← entry T fuel .dadd σ (adjOf σ a) (adjOf σ i)
    let σ1 := setAdj σ1 a u1
    let (σ2, u2) ← entry T fuel .dadd σ1 (adjOf σ1 b) (adjOf σ1 i)
    .ok (setAdj σ2 b u2)
  | .add, .bin (.ref a) (.const _) => do
    -- chain_vf: self.larg.adj += self.adj
    let (σ1, u) ← entry T fuel .dadd σ (adjOf σ a) (adjOf σ i)
    .ok (setAdj σ1 a u)
  | .add, .bin (.const _) (.ref b) => do
    -- chain_fv: self.rarg.adj += self.adj
    let (σ1, u) ← entry T fuel .dadd σ (adjOf σ b) (adjOf σ i)
    .ok (setAdj σ1 b u)
  | .sub, .bin (.ref a) (.ref b) => do
    -- chain_vv: self.larg.adj += self.adj; self.rarg.adj -= self.adj
    let (σ1, u1) ← entry T fuel .dadd σ (adjOf σ a) (adjOf σ i)
    let σ1 := setAdj σ1 a u1
    let (σ2, u2) ← entry T fuel .dsub σ1 (adjOf σ1 b) (adjOf σ1 i)
    .ok (setAdj σ2 b u2)
  | .sub, .bin (.ref a) (.const _) => do
    -- chain_vf: self.larg.adj += self.adj
    let (σ1, u) ← entry T fuel .dadd σ (adjOf σ a) (adjOf σ i)
    .ok (setAdj σ1 a u)
  | .sub, .bin (.const _) (.ref b) => do
    -- chain_fv: self.rarg.adj -= self.adj
    let (σ1, u) ← entry T fuel .dsub σ (adjOf σ b) (adjOf σ i)
    .ok (setAdj σ1 b u)
  | .mul, .bin (.ref a) (.ref b) => do
    -- chain_vv: self.larg.adj += self.adj * self.rarg;
    --           self.rarg.adj += self.adj * self.larg
    let (σ1, t1) ← entry T fuel .dmul σ (adjOf σ i) (.ref b)
    let (σ1', u1) ← entry T fuel .dadd σ1 (adjOf σ1 a) t1
    let σ2 := setAdj σ1' a u1
    let (σ3, t2) ← entry T fuel .dmul σ2 (adjOf σ2 i) (.ref a)
    let (σ3', u2) ← entry T fuel .dadd σ3 (adjOf σ3 b) t2
    .ok (setAdj σ3' b u2)
  | .mul, .bin (.ref a) (.const c) => do
    -- chain_vf: self.larg.adj += self.adj * self.rarg
    let (σ1, t) ← entry T fuel .dmul σ (adjOf σ i) (.const c)
    let (σ1', u) ← entry T fuel .dadd σ1 (adjOf σ1 a) t
    .ok (setAdj σ1' a u)
  | .mul, .bin (.const c) (.ref b) => do
    -- chain_fv: self.rarg.adj += self.adj * self.larg
    let (σ1, t) ← entry T fuel .dmul σ (adjOf σ i) (.const c)
    let (σ1', u) ← entry T fuel .dadd σ1 (adjOf σ1 b) t
    .ok (setAdj σ1' b u)
  | .div, .bin (.ref a) (.ref b) => do
    -- chain_vv: self.larg.adj += self.adj / self.rarg;
    --           self.rarg.adj += self.adj * -self.larg / self.rarg ** 2.0
    let (σ1, t) ← entry T fuel .ddiv σ (adjOf σ i) (.ref b)
    let (σ1', u1) ← entry T fuel .dadd σ1 (adjOf σ1 a) t
    let σ2 := setAdj σ1' a u1
    let ad := adjOf σ2 i
    let (σ3, nl) ← entry T fuel .dneg σ2 (.ref a) (.ref a)
    let (σ4, m) ← entry T fuel .dmul σ3 ad nl
    let (σ5, p) ← entry T fuel .dpow σ4 (.ref b) (.const 2)
    let (σ6, q) ← entry T fuel .ddiv σ5 m p
    let (σ7, u2) ← entry T fuel .dadd σ6 (adjOf σ6 b) q
    .ok (setAdj σ7 b u2)
  | .div, .bin (.ref a) (.const c) => do
    -- chain_vf: self.larg.adj += self.adj / self.rarg
    let (σ1, t) ← entry T fuel .ddiv σ (adjOf σ i) (.const c)
    let (σ1', u) ← entry T fuel .dadd σ1 (adjOf σ1 a) t
    .ok (setAdj σ1' a u)
  | .div, .bin (.const c) (.ref b) => do
    -- chain_fv: self.rarg.adj += self.adj * -self.larg / self.rarg ** 2.0
    let ad := adjOf σ i
    let (σ1, m) ← entry T fuel .dmul σ ad (.const (-c))
    let (σ2, p) ← entry T fuel .dpow σ1 (.ref b) (.const 2)
    let (σ3, q) ← entry T fuel .ddiv σ2 m p
    let (σ4, u) ← entry T fuel .dadd σ3 (adjOf σ3 b) q
    .ok (setAdj σ4 b u)
  | .pow, .bin (.ref a) (.ref b) => do
    -- chain_vv: self.larg.adj += self.adj * self.rarg * self.larg ** (self.rarg - 1.0);
    --           self.rarg.adj += self.adj * self.larg ** self.rarg * log(self.larg)
    let (σ1, t1) ← entry T fuel .dmul σ (adjOf σ i) (.ref b)
    let (σ2, t2) ← entry T fuel .dsub σ1 (.ref b) (.const 1)
    let (σ3, t3) ← entry T fuel .dpow σ2 (.ref a) t2
    let (σ4, t4) ← entry T fuel .dmul σ3 t1 t3
    let (σ5, u1) ← entry T fuel .dadd σ4 (adjOf σ4 a) t4
    let σ5 := setAdj σ5 a u1
    let ad := adjOf σ5 i
    let (σ6, p) ← entry T fuel .dpow σ5 (.ref a) (.ref b)
    let (σ7, q) ← entry T fuel .dmul σ6 ad p
    let (σ8, lg) ← entry T fuel .vlog σ7 (.ref a) (.ref a)
    let (σ9, t5) ← entry T fuel .dmul σ8 q lg
    let (σ10, u2) ← entry T fuel .dadd σ9 (adjOf σ9 b) t5
    .ok (setAdj σ10 b u2)
  | .pow, .bin (.const c) (.ref b) => do
    -- chain_fv: self.rarg.adj += self.adj * self.larg ** self.rarg * math.log(self.larg)
    let ad := adjOf σ i
    let (σ1, p) ← entry T fuel .dpow σ (.const c) (.ref b)
    let (σ2, q) ← entry T fuel .dmul σ1 ad p
    let lv ← T.log c
    let (σ3, t) ← entry T fuel .dmul σ2 q (.const lv)
    let (σ4, u) ← entry T fuel .dadd σ3 (adjOf σ3 b) t
    .ok (setAdj σ4 b u)
  | .pow, .bin (.ref a) (.const c) => do
    -- chain_vf: self.larg.adj += self.adj * self.rarg * self.larg ** (self.rarg - 1.0)
    let (σ1, t1) ← entry T fuel .dmul σ (adjOf σ i) (.const c)
    let (σ2, t3) ← entry T fuel .dpow σ1 (.ref a) (.const (c - 1))
    let (σ3, t4) ← entry T fuel .dmul σ2 t1 t3
    let (σ4, u) ← entry T fuel .dadd σ3 (adjOf σ3 a) t4
    .ok (setAdj σ4 a u)
  | _, _ => .error .attributeError

/-- The reset phase `Var.reset_adj_all` (lines 94-106): set `self.adj`
to `0.0` and `self.chain_executed` to `False`, then recurse into every
operand that is a `Var` (`hasattr(arg, 'reset_adj_all')`), left to
right.  There is no visited guard of any kind in the source; the fuel
bounds the recursion depth (reference chains strictly decrease on
constructed stores, so fuel beyond the store size is never
exhausted). -/
def reset_adj_all : Nat → Store α → Nat → Store α
  | 0, σ, _ => σ
  | fuel + 1, σ, i =>
    let σ1 := setExec (setAdj σ i (.const 0)) i false
    (argsL (getN σ i)).foldl
      (fun acc a =>
        match a with
        | .ref j => reset_adj_all fuel acc j
        | .const _ => acc)
      σ1

/-- Number of `reset_adj_all` invocations performed by the reset phase
started at node `i`: the same recursion as `reset_adj_all`, counting
calls instead of mutating (resets do not change `args`, so counting over
the unchanged store is exact). -/
def reset_count (σ : Store α) : Nat → Nat → Nat
  | 0, _ => 0
  | fuel + 1, i =>
    (argsL (getN σ i)).foldl
      (fun acc a =>
        match a with
        | .ref j => acc + reset_count σ fuel j
        | .const _ => acc)
      1

/-- The body of the worklist loop's push phase: for every operand that
is a `Var` (`hasattr(arg, 'chain_executed')`) and not yet marked, mark it
and append it to the queue (lines 89-92). -/
def pushArgs (σ : Store α) (q : List Nat) (args : List (Operand α)) :
    Store α × List Nat :=
  args.foldl
    (fun (p : Store α × List Nat) a =>
      match a with
      | .ref j =>
        if (getN p.1 j).chain_executed then p
        else (setExec p.1 j true, p.2 ++ [j])
      | .const _ => p)
    (σ, q)

/-- The worklist loop of `Var.grad` (lines 86-92): `queue.pop()` removes
the LAST element (Python list pop), the popped node's chain rule runs,
then every `Var` operand not yet marked `chain_executed` is marked and
appended.  The loop fuel bounds the number of iterations (each reachable
node is appended at most once, so store size + 1 always suffices). -/
def gradLoop (T : Transc α) (efuel : Nat) : Nat → Store α → List Nat →
    Except Err (Store α)
  | 0, σ, _ => .ok σ
  | fuel + 1, σ, q =>
    match q.getLast? with
    | none => .ok σ
    | some i => do
      let σ1 ← chain T efuel σ i
      let st := pushArgs σ1 q.dropLast (argsL (getN σ1 i))
      gradLoop T efuel fuel st.1 st.2

/-- The full `Var.grad` (lines 75-92): reset all reachable adjoints, seed
`self.adj = 1.0` and `self.chain_executed = True`, then run the worklist
loop seeded with the root.  One fuel parameter feeds the reset recursion,
the loop iteration count and the constructor layer. -/
def grad (T : Transc α) (fuel : Nat) (σ : Store α) (root : Nat) :
    Except Err (Store α) :=
  let σ1 := reset_adj_all fuel σ root
  let σ2 := setExec (setAdj σ1 root (.const 1)) root true
  gradLoop T fuel fuel σ2 [root]

/-- Numeric value of an operand: a bare float is itself, a node
reference reads `node.val` (how the spec's `x.adjoint.value` reads an
adjoint that may be either). -/
def operandVal (σ : Store α) : Operand α → α
  | .const c => c
  | .ref i => (getN σ i).val

/-- Adjoint of node `i` in a `grad` result, `none` when `grad` raised. -/
def adjAt (e : Except Err (Store α)) (i : Nat) : Option (Operand α) :=
  match e with
  | .ok σ => some (adjOf σ i)
  | .error _ => none

/-- Numeric value of the adjoint of node `i` in a `grad` result. -/
def adjValAt (e : Except Err (Store α)) (i : Nat) : Option α :=
  match e with
  | .ok σ => some (operandVal σ (adjOf σ i))
  | .error _ => none

/-- Forward value of node `i` in a `grad` result. -/
def valAt (e : Except Err (Store α)) (i : Nat) : Option α :=
  match e with
  | .ok σ => some ((getN σ i).val)
  | .error _ => none

/-- Model of Python float semantics over ℚ for the external functions,
exact at every sample point the claims use: `**` is exact on integer
exponents (with the float conventions: `0.0 ** -1` raises
`ZeroDivisionError`, a negative base with an integral exponent is fine,
a negative base with a fractional exponent raises) and defined (with an
irrational value, represented by a placeholder the claims never rely on)
for positive bases otherwise; `math.log` is defined exactly on positive
arguments and its (irrational) value is supplied by the oracle `lg`, so
a theorem quantified over `lg` holds for every model of the logarithm,
in particular the true `ln`; `sin`/`cos` values are likewise
placeholders no claim relies on. -/
def ratT (lg : ℚ → ℚ) : Transc ℚ where
  pow a b :=
    if b.den = 1 then
      if a = 0 ∧ b.num < 0 then .error .zeroDivision else .ok (a ^ b.num)
    else if 0 < a then .ok 0 else .error .domainError
  log a := if 0 < a then .ok (lg a) else .error .domainError
  sin _ := 0
  cos _ := 0

/-- The oracle-free instance used by claims that never read the numeric
value of a logarithm. -/
def T0 : Transc ℚ := ratT (fun _ => 0)

instance {ε β : Type} [DecidableEq ε] [DecidableEq β] : DecidableEq (Except ε β) := fun a b =>
  match a, b with
  | .ok x, .ok y =>
    if h : x = y then .isTrue (by rw [h]) else .isFalse (by intro hc; cases hc; exact h rfl)
  | .error x, .error y =>
    if h : x = y then .isTrue (by rw [h]) else .isFalse (by intro hc; cases hc; exact h rfl)
  | .ok _, .error _ => .isFalse (by intro hc; cases hc)
  | .error _, .ok _ => .isFalse (by intro hc; cases hc)

/-- Run `differentiate` on the root returned by a construction run: the
common pattern `z.grad()` (a bare-float root has no `grad` attribute). -/
def runRoot (T : Transc α) (f : Nat) (g : Except Err (Store α × Operand α)) :
    Except Err (Store α) := do
  let (σ, z) ← g
  match z with
  | .ref i => grad T f σ i
  | .const _ => .error .attributeError

/-! ## Concrete graphs used by the claims -/

/-- Graph for C1: `w = Var(a); s = w + 1.0; l = s + 3.0; m = s + 5.0;
root = l + m`.  The node `s` is shared by the two parents `l` and `m`,
and is itself an interior node (its operand is the leaf `w`). -/
def c1_graph (a : ℚ) : Except Err (Store ℚ × Operand ℚ) := do
  let (σ, w) := leaf ([] : Store ℚ) a
  let (σ, s) ← v_add T0 12 σ w (.const 1)
  let (σ, l) ← v_add T0 12 σ s (.const 3)
  let (σ, m) ← v_add T0 12 σ s (.const 5)
  v_add T0 12 σ l m

/-- Run of `root.grad()` on the C1 graph. -/
def c1_grad (a : ℚ) : Except Err (Store ℚ) :=
  runRoot T0 12 (c1_graph a)

/-- Run for C2: `x = Var(9.0); y = Var(3.0); d = log(x) - log(y)`, and,
for the structural comparison the claim asks for, the independently
constructed `log(x / y)`.  Returns the final store together with the two
result operands `(d, log(x/y))`. -/
def c2_run : Except Err (Store ℚ × Operand ℚ × Operand ℚ) := do
  let (σ, x) := leaf ([] : Store ℚ) 9
  let (σ, y) := leaf σ 3
  let (σ, lx) ← logV T0 12 σ x
  let (σ, ly) ← logV T0 12 σ y
  let (σ, d) ← v_sub T0 12 σ lx ly
  let (σ, q) ← v_div T0 12 σ x y
  let (σ, lq) ← logV T0 12 σ q
  .ok (σ, d, lq)

/-- Graph for C3: leaves `a, b, c`, then `z = a*b + a*c`, and, for the
structural comparison, the independently constructed `a*(b+c)`.  Returns
the final store together with `(z, a*(b+c))`. -/
def c3_graph (a b c : ℚ) : Except Err (Store ℚ × Operand ℚ × Operand ℚ) := do
  let (σ, x) := leaf ([] : Store ℚ) a
  let (σ, y) := leaf σ b
  let (σ, w) := leaf σ c
  let (σ, xy) ← v_mul T0 12 σ x y
  let (σ, xw) ← v_mul T0 12 σ x w
  let (σ, z) ← v_add T0 12 σ xy xw
  let (σ, s) ← v_add T0 12 σ y w
  let (σ, t) ← v_mul T0 12 σ x s
  .ok (σ, z, t)

/-- Run of `z.grad()` on the C3 graph (`z` is node 6). -/
def c3_grad (a b c : ℚ) : Except Err (Store ℚ) :=
  runRoot T0 12 ((c3_graph a b c).map (fun p => (p.1, p.2.1)))

/-- Construction for C4: `x = Var(a); z = x + x` (both operands the very
same node). -/
def c4_build (a : ℚ) : Except Err (Store ℚ × Operand ℚ) := do
  let (σ, x) := leaf ([] : Store ℚ) a
  v_add T0 12 σ x x

/-- Run of `z.grad()` on the C4 graph. -/
def c4_grad (a : ℚ) : Except Err (Store ℚ) :=
  runRoot T0 12 (c4_build a)

/-- Construction for C5: `x = Var(2.0); y = Var(3.0); z = x ** y`, under
an arbitrary model `lg` of `math.log`. -/
def c5_build (lg : ℚ → ℚ) : Except Err (Store ℚ × Operand ℚ) := do
  let (σ, x) := leaf ([] : Store ℚ) 2
  let (σ, y) := leaf σ 3
  v_pow (ratT lg) 12 σ x y

/-- Run of `z.grad()` on the C5 graph. -/
def c5_grad (lg : ℚ → ℚ) : Except Err (Store ℚ) :=
  runRoot (ratT lg) 12 (c5_build lg)

/-- Construction for C7: `x = Var(-1.0); y = Var(3.0); z = x ** y`.
Python float power is exact here: `(-1.0) ** 3.0 == -1.0`, so
construction succeeds. -/
def c7_build : Except Err (Store ℚ × Operand ℚ) := do
  let (σ, x) := leaf ([] : Store ℚ) (-1)
  let (σ, y) := leaf σ 3
  v_pow T0 12 σ x y

/-- Run of `z.grad()` on the C7 graph. -/
def c7_grad : Except Err (Store ℚ) :=
  runRoot T0 12 c7_build

/-- Diamond graph for C8: `x = Var(7.0); l = x + 1.0; m = x + 2.0;
root = l + m`.  The leaf `x` is reached from the root along two paths. -/
def c8_build : Except Err (Store ℚ × Operand ℚ) := do
  let (σ, x) := leaf ([] : Store ℚ) 7
  let (σ, l) ← v_add T0 12 σ x (.const 1)
  let (σ, m) ← v_add T0 12 σ x (.const 2)
  v_add T0 12 σ l m

/-- The C8 store with every adjoint and flag dirtied (as they are after
a `grad` run), to exhibit that the reset phase really clears them. -/
def c8_dirty : Store ℚ :=
  [⟨7, .const 99, .var, .leaf, true⟩,
   ⟨8, .const 99, .add, .bin (.ref 0) (.const 1), true⟩,
   ⟨9, .const 99, .add, .bin (.ref 0) (.const 2), true⟩,
   ⟨17, .const 99, .add, .bin (.ref 1) (.ref 2), true⟩]

/-- Run for C9: `x = Var(2.0); L = log(x); r = L + L` (the very same log
node on both sides of `+`). -/
def c9_run : Except Err (Store ℚ × Operand ℚ) := do
  let (σ, x) := leaf ([] : Store ℚ) 2
  let (σ, lx) ← logV T0 12 σ x
  v_add T0 12 σ lx lx

/-- Run for C10's subtraction case on a log node: `x = Var(2.0);
L = log(x); L - L`. -/
def c10_logsub : Except Err (Store ℚ × Operand ℚ) := do
  let (σ, x) := leaf ([] : Store ℚ) 2
  let (σ, lx) ← logV T0 12 σ x
  v_sub T0 12 σ lx lx

/-- Template for the C1 store: the five nodes of
`root = (w+1.0+3.0) + (w+1.0+5.0)` with the adjoint and visited-flag
state as parameters (the traversal mutates only those). -/
def c1st (a : ℚ) (r0 r1 r2 r3 r4 : Operand ℚ) (e0 e1 e2 e3 e4 : Bool) :
    Store ℚ :=
  [⟨a, r0, .var, .leaf, e0⟩,
   ⟨a + 1, r1, .add, .bin (.ref 0) (.const 1), e1⟩,
   ⟨a + 1 + 3, r2, .add, .bin (.ref 1) (.const 3), e2⟩,
   ⟨a + 1 + 5, r3, .add, .bin (.ref 1) (.const 5), e3⟩,
   ⟨a + 1 + 3 + (a + 1 + 5), r4, .add, .bin (.ref 2) (.ref 3), e4⟩]

/-- The C1 store as built, before any traversal. -/
def c1s0 (a : ℚ) : Store ℚ :=
  c1st a (.const 0) (.const 0) (.const 0) (.const 0) (.const 0)
    false false false false false

/-- Template for the C3 store: leaves `a b c`, the two products, the
rewrite result `a*(b+c)` (nodes 5, 6) and the independently built
comparison copy (nodes 7, 8), with mutable state as parameters. -/
def c3st (a b c : ℚ) (r0 r1 r2 r5 r6 : Operand ℚ)
    (e0 e1 e2 e5 e6 : Bool) : Store ℚ :=
  [⟨a, r0, .var, .leaf, e0⟩,
   ⟨b, r1, .var, .leaf, e1⟩,
   ⟨c, r2, .var, .leaf, e2⟩,
   ⟨a * b, .const 0, .mul, .bin (.ref 0) (.ref 1), false⟩,
   ⟨a * c, .const 0, .mul, .bin (.ref 0) (.ref 2), false⟩,
   ⟨b + c, r5, .add, .bin (.ref 1) (.ref 2), e5⟩,
   ⟨a * (b + c), r6, .mul, .bin (.ref 0) (.ref 5), e6⟩,
   ⟨b + c, .const 0, .add, .bin (.ref 1) (.ref 2), false⟩,
   ⟨a * (b + c), .const 0, .mul, .bin (.ref 0) (.ref 7), false⟩]

/-- The C3 store as built, before any traversal. -/
def c3s0 (a b c : ℚ) : Store ℚ :=
  c3st a b c (.const 0) (.const 0) (.const 0) (.const 0) (.const 0)
    false false false false false

/-- The six nodes allocated by `OpPowVar.chain_vv` during the C5 `grad`
run, in allocation order: `y - 1.0`, `x ** (y-1)`, `y * (x ** (y-1))`
(the new adjoint of `x`), `x ** y`, `log(x)`, and `x**y * log(x)` (the
new adjoint of `y`). -/
def c5ext (lg : ℚ → ℚ) : Store ℚ :=
  [⟨3 - 1, .const 0, .sub, .bin (.ref 1) (.const 1), false⟩,
   ⟨(2 : ℚ) ^ ((3 : ℚ) - 1).num, .const 0, .pow, .bin (.ref 0) (.ref 3), false⟩,
   ⟨3 * (2 : ℚ) ^ ((3 : ℚ) - 1).num, .const 0, .mul, .bin (.ref 1) (.ref 4), false⟩,
   ⟨(2 : ℚ) ^ (3 : ℚ).num, .const 0, .pow, .bin (.ref 0) (.ref 1), false⟩,
   ⟨lg 2, .const 0, .log, .mono (.ref 0), false⟩,
   ⟨(2 : ℚ) ^ (3 : ℚ).num * lg 2, .const 0, .mul, .bin (.ref 6) (.ref 7), false⟩]

/-- Template for the C5 store: `x = Var(2.0)`, `y = Var(3.0)`,
`z = x ** y`, plus the first `k` nodes `OpPowVar.chain_vv` has allocated
so far. -/
def c5st (lg : ℚ → ℚ) (r0 r1 r2 : Operand ℚ) (e0 e1 e2 : Bool) (k : Nat) :
    Store ℚ :=
  [⟨2, r0, .var, .leaf, e0⟩,
   ⟨3, r1, .var, .leaf, e1⟩,
   ⟨(2 : ℚ) ^ (3 : ℚ).num, r2, .pow, .bin (.ref 0) (.ref 1), e2⟩] ++
  (c5ext lg).take k

/-- The store after the C2 run, in allocation order: the leaves 9.0 and
3.0, their logs, then the node the subtraction entry point actually
builds for `log(x) - log(y)`: a log whose argument is the *subtraction*
node `x - y` (line 520 computes `log(l.arg - r.arg)`), and finally the
independently built quotient `x / y` with its log for comparison. -/
def c2s : Store ℚ :=
  [⟨9, .const 0, .var, .leaf, false⟩,
   ⟨3, .const 0, .var, .leaf, false⟩,
   ⟨0, .const 0, .log, .mono (.ref 0), false⟩,
   ⟨0, .const 0, .log, .mono (.ref 1), false⟩,
   ⟨9 - 3, .const 0, .sub, .bin (.ref 0) (.ref 1), false⟩,
   ⟨0, .const 0, .log, .mono (.ref 4), false⟩,
   ⟨9 / 3, .const 0, .div, .bin (.ref 0) (.ref 1), false⟩,
   ⟨0, .const 0, .log, .mono (.ref 6), false⟩]

/-- The four nodes `OpPowVar.chain_vv` allocates during the C7 `grad`
run before its `log(self.larg)` call raises: `y - 1.0`, `x ** (y-1)`,
`y * (x ** (y-1))` (the new adjoint of `x`), and `x ** y`. -/
def c7ext : Store ℚ :=
  [⟨3 - 1, .const 0, .sub, .bin (.ref 1) (.const 1), false⟩,
   ⟨(-1 : ℚ) ^ ((3 : ℚ) - 1).num, .const 0, .pow, .bin (.ref 0) (.ref 3),
     false⟩,
   ⟨3 * (-1 : ℚ) ^ ((3 : ℚ) - 1).num, .const 0, .mul, .bin (.ref 1) (.ref 4),
     false⟩,
   ⟨(-1 : ℚ) ^ (3 : ℚ).num, .const 0, .pow, .bin (.ref 0) (.ref 1), false⟩]

/-- Template for the C7 store: `x = Var(-1.0)`, `y = Var(3.0)`,
`z = x ** y`, plus the first `k` nodes the failing chain rule has
allocated so far. -/
def c7st (r0 r1 r2 : Operand ℚ) (e0 e1 e2 : Bool) (k : Nat) : Store ℚ :=
  [⟨-1, r0, .var, .leaf, e0⟩,
   ⟨3, r1, .var, .leaf, e1⟩,
   ⟨(-1 : ℚ) ^ (3 : ℚ).num, r2, .pow, .bin (.ref 0) (.ref 1), e2⟩] ++
  c7ext.take k

/-- The C8 diamond with every adjoint and flag cleared: what the reset
phase must produce from `c8_dirty`. -/
def c8_clean : Store ℚ :=
  [⟨7, .const 0, .var, .leaf, false⟩,
   ⟨8, .const 0, .add, .bin (.ref 0) (.const 1), false⟩,
   ⟨9, .const 0, .add, .bin (.ref 0) (.const 2), false⟩,
   ⟨17, .const 0, .add, .bin (.ref 1) (.ref 2), false⟩]

/-- The store after the C9 run: `x = Var(2.0)`, `L = log(x)`, and the
node `v_add(L, L)` actually builds: `L * 2.0` (a `mul` node), because
the self-equality rewrite at line 452 fires before the log-combination
rule at line 454. -/
def c9s : Store ℚ :=
  [⟨2, .const 0, .var, .leaf, false⟩,
   ⟨0, .const 0, .log, .mono (.ref 0), false⟩,
   ⟨0 * 2, .const 0, .mul, .bin (.ref 1) (.const 2), false⟩]

/-! ## Evaluation lemmas

Stepping lemmas used to run `grad` symbolically (with leaf values as
free variables): each lemma peels one interpreter step, taking the
sub-results as hypotheses, so that at a use site every hypothesis is a
small definitional check on a literal store. -/

theorem bind_ok {ε β γ : Type} (a : β) (f : β → Except ε γ) :
    (Except.ok a >>= f : Except ε γ) = f a := rfl

theorem runRoot_ok (T : Transc α) (f : Nat) (σ : Store α) (i : Nat)
    (g : Except Err (Store α × Operand α)) (hg : g = .ok (σ, .ref i)) :
    runRoot T f g = grad T f σ i := by
  rw [runRoot, hg]; rfl

theorem grad_run (T : Transc α) (f : Nat) (σ σr σs : Store α) (root : Nat)
    (hr : reset_adj_all f σ root = σr)
    (hs : setExec (setAdj σr root (.const 1)) root true = σs) :
    grad T f σ root = gradLoop T f f σs [root] := by
  rw [grad, hr, hs]

theorem gradLoop_pop (T : Transc α) (e f : Nat) (σ σ1 σ2 : Store α)
    (q q2 : List Nat) (i : Nat)
    (hq : q.getLast? = some i)
    (hc : chain T e σ i = .ok σ1)
    (hp : pushArgs σ1 q.dropLast (argsL (getN σ1 i)) = (σ2, q2)) :
    gradLoop T e (f + 1) σ q = gradLoop T e f σ2 q2 := by
  simp only [gradLoop, hq, hc, bind_ok, hp]

theorem gradLoop_done (T : Transc α) (e f : Nat) (σ : Store α) :
    gradLoop T e f σ [] = .ok σ := by
  cases f <;> rfl

theorem reset_argsNone (f : Nat) (σ σ1 : Store α) (i : Nat)
    (ha : argsL (getN σ i) = [])
    (hs : setExec (setAdj σ i (.const 0)) i false = σ1) :
    reset_adj_all (f + 1) σ i = σ1 := by
  simp only [reset_adj_all, ha, hs, List.foldl]

theorem reset_argsR (f : Nat) (σ σ1 : Store α) (i a : Nat)
    (ha : argsL (getN σ i) = [.ref a])
    (hs : setExec (setAdj σ i (.const 0)) i false = σ1) :
    reset_adj_all (f + 1) σ i = reset_adj_all f σ1 a := by
  simp only [reset_adj_all, ha, hs, List.foldl]

theorem reset_argsRR (f : Nat) (σ σ1 : Store α) (i a b : Nat)
    (ha : argsL (getN σ i) = [.ref a, .ref b])
    (hs : setExec (setAdj σ i (.const 0)) i false = σ1) :
    reset_adj_all (f + 1) σ i = reset_adj_all f (reset_adj_all f σ1 a) b := by
  simp only [reset_adj_all, ha, hs, List.foldl]

theorem reset_argsRC (f : Nat) (σ σ1 : Store α) (i a : Nat) (c : α)
    (ha : argsL (getN σ i) = [.ref a, .const c])
    (hs : setExec (setAdj σ i (.const 0)) i false = σ1) :
    reset_adj_all (f + 1) σ i = reset_adj_all f σ1 a := by
  simp only [reset_adj_all, ha, hs, List.foldl]

theorem chain_var (T : Transc α) (e : Nat) (σ : Store α) (i : Nat)
    (hop : (getN σ i).op = .var) :
    chain T e σ i = .ok σ := by
  simp only [chain, hop]

theorem chain_add_vv (T : Transc α) (e : Nat) (σ σ1 σ2 σ3 σ4 : Store α)
    (i a b : Nat) (c0 d0 c1 d1 u1 u2 : Operand α)
    (hop : (getN σ i).op = .add)
    (hsh : (getN σ i).shape = .bin (.ref a) (.ref b))
    (ha0 : adjOf σ a = c0) (hd0 : adjOf σ i = d0)
    (h1 : entry T e .dadd σ c0 d0 = .ok (σ1, u1))
    (hs1 : setAdj σ1 a u1 = σ2)
    (ha1 : adjOf σ2 b = c1) (hd1 : adjOf σ2 i = d1)
    (h2 : entry T e .dadd σ2 c1 d1 = .ok (σ3, u2))
    (hs2 : setAdj σ3 b u2 = σ4) :
    chain T e σ i = .ok σ4 := by
  simp only [chain, hop, hsh, ha0, hd0, h1, bind_ok, hs1, ha1, hd1, h2, hs2]

theorem chain_add_vf (T : Transc α) (e : Nat) (σ σ1 σ2 : Store α)
    (i a : Nat) (c : α) (c0 d0 u : Operand α)
    (hop : (getN σ i).op = .add)
    (hsh : (getN σ i).shape = .bin (.ref a) (.const c))
    (ha0 : adjOf σ a = c0) (hd0 : adjOf σ i = d0)
    (h1 : entry T e .dadd σ c0 d0 = .ok (σ1, u))
    (hs1 : setAdj σ1 a u = σ2) :
    chain T e σ i = .ok σ2 := by
  simp only [chain, hop, hsh, ha0, hd0, h1, bind_ok, hs1]

theorem chain_mul_vv (T : Transc α) (e : Nat) (σ σ1 σ2 σ3 σ4 σ5 σ6 : Store α)
    (i a b : Nat) (d0 t1 c0 u1 d2 t2 c1 u2 : Operand α)
    (hop : (getN σ i).op = .mul)
    (hsh : (getN σ i).shape = .bin (.ref a) (.ref b))
    (hd0 : adjOf σ i = d0)
    (h1 : entry T e .dmul σ d0 (.ref b) = .ok (σ1, t1))
    (ha0 : adjOf σ1 a = c0)
    (h2 : entry T e .dadd σ1 c0 t1 = .ok (σ2, u1))
    (hs1 : setAdj σ2 a u1 = σ3)
    (hd2 : adjOf σ3 i = d2)
    (h3 : entry T e .dmul σ3 d2 (.ref a) = .ok (σ4, t2))
    (ha1 : adjOf σ4 b = c1)
    (h4 : entry T e .dadd σ4 c1 t2 = .ok (σ5, u2))
    (hs2 : setAdj σ5 b u2 = σ6) :
    chain T e σ i = .ok σ6 := by
  simp only [chain, hop, hsh, hd0, h1, bind_ok, ha0, h2, hs1, hd2, h3, ha1, h4, hs2]

theorem chain_mul_vf (T : Transc α) (e : Nat) (σ σ1 σ2 σ3 : Store α)
    (i a : Nat) (c : α) (d0 t c0 u : Operand α)
    (hop : (getN σ i).op = .mul)
    (hsh : (getN σ i).shape = .bin (.ref a) (.const c))
    (hd0 : adjOf σ i = d0)
    (h1 : entry T e .dmul σ d0 (.const c) = .ok (σ1, t))
    (ha0 : adjOf σ1 a = c0)
    (h2 : entry T e .dadd σ1 c0 t = .ok (σ2, u))
    (hs1 : setAdj σ2 a u = σ3) :
    chain T e σ i = .ok σ3 := by
  simp only [chain, hop, hsh, hd0, h1, bind_ok, ha0, h2, hs1]

theorem chain_pow_vv (T : Transc α) (e : Nat)
    (σ σ1 σ2 σ3 σ4 σ5 σ6 σ7 σ8 σ9 σ10 σ11 σ12 : Store α)
    (i a b : Nat) (d0 t1 t2 t3 t4 c0 u1 d2 p q lg t5 c1 u2 : Operand α)
    (hop : (getN σ i).op = .pow)
    (hsh : (getN σ i).shape = .bin (.ref a) (.ref b))
    (hd0 : adjOf σ i = d0)
    (h1 : entry T e .dmul σ d0 (.ref b) = .ok (σ1, t1))
    (h2 : entry T e .dsub σ1 (.ref b) (.const 1) = .ok (σ2, t2))
    (h3 : entry T e .dpow σ2 (.ref a) t2 = .ok (σ3, t3))
    (h4 : entry T e .dmul σ3 t1 t3 = .ok (σ4, t4))
    (ha0 : adjOf σ4 a = c0)
    (h5 : entry T e .dadd σ4 c0 t4 = .ok (σ5, u1))
    (hs1 : setAdj σ5 a u1 = σ6)
    (hd2 : adjOf σ6 i = d2)
    (h6 : entry T e .dpow σ6 (.ref a) (.ref b) = .ok (σ7, p))
    (h7 : entry T e .dmul σ7 d2 p = .ok (σ8, q))
    (h8 : entry T e .vlog σ8 (.ref a) (.ref a) = .ok (σ9, lg))
    (h9 : entry T e .dmul σ9 q lg = .ok (σ10, t5))
    (ha1 : adjOf σ10 b = c1)
    (h10 : entry T e .dadd σ10 c1 t5 = .ok (σ11, u2))
    (hs2 : setAdj σ11 b u2 = σ12) :
    chain T e σ i = .ok σ12 := by
  simp only [chain, hop, hsh, hd0, h1, bind_ok, h2, h3, h4, ha0, h5, hs1, hd2,
    h6, h7, h8, h9, ha1, h10, hs2]

theorem gradLoop_pop_err (T : Transc α) (e f : Nat) (σ : Store α)
    (q : List Nat) (i : Nat) (er : Err)
    (hq : q.getLast? = some i)
    (hc : chain T e σ i = .error er) :
    gradLoop T e (f + 1) σ q = .error er := by
  simp only [gradLoop, hq, hc]
  rfl

theorem entry_dpow_rr_plain (T : Transc α) (f : Nat) (σ : Store α)
    (i j : Nat) (v : α)
    (hl : isOp σ (.ref i) .pow = false)
    (hv : T.pow ((getN σ i).val) ((getN σ j).val) = .ok v) :
    entry T (f + 2) .dpow σ (.ref i) (.ref j) =
      .ok (σ ++ [⟨v, .const 0, .pow, .bin (.ref i) (.ref j), false⟩],
        .ref σ.length) := by
  simp [entry, isConstEq, hl, mkBin, hv]
  rfl

theorem chain_pow_vv_logErr (T : Transc α) (e : Nat)
    (σ σ1 σ2 σ3 σ4 σ5 σ6 σ7 σ8 : Store α)
    (i a b : Nat) (d0 t1 t2 t3 t4 c0 u1 d2 p q : Operand α) (er : Err)
    (hop : (getN σ i).op = .pow)
    (hsh : (getN σ i).shape = .bin (.ref a) (.ref b))
    (hd0 : adjOf σ i = d0)
    (h1 : entry T e .dmul σ d0 (.ref b) = .ok (σ1, t1))
    (h2 : entry T e .dsub σ1 (.ref b) (.const 1) = .ok (σ2, t2))
    (h3 : entry T e .dpow σ2 (.ref a) t2 = .ok (σ3, t3))
    (h4 : entry T e .dmul σ3 t1 t3 = .ok (σ4, t4))
    (ha0 : adjOf σ4 a = c0)
    (h5 : entry T e .dadd σ4 c0 t4 = .ok (σ5, u1))
    (hs1 : setAdj σ5 a u1 = σ6)
    (hd2 : adjOf σ6 i = d2)
    (h6 : entry T e .dpow σ6 (.ref a) (.ref b) = .ok (σ7, p))
    (h7 : entry T e .dmul σ7 d2 p = .ok (σ8, q))
    (h8 : entry T e .vlog σ8 (.ref a) (.ref a) = .error er) :
    chain T e σ i = .error er := by
  simp only [chain, hop, hsh, hd0, h1, bind_ok, h2, h3, h4, ha0, h5, hs1, hd2,
    h6, h7, h8]
  rfl

theorem entry_vlog_plain (T : Transc α) (f : Nat) (σ : Store α)
    (i : Nat) (w : α)
    (hnp : ¬((getN σ i).op = .pow))
    (hv : T.log (getN σ i).val = .ok w) :
    entry T (f + 1) .vlog σ (.ref i) (.ref i) =
      .ok (σ ++ [⟨w, .const 0, .log, .mono (.ref i), false⟩],
        .ref σ.length) := by
  simp only [entry]
  rw [if_neg hnp]
  simp [mkMono, hv]
  rfl

theorem entry_vlog_err (T : Transc α) (f : Nat) (σ : Store α)
    (i : Nat) (er : Err)
    (hnp : ¬((getN σ i).op = .pow))
    (hv : T.log (getN σ i).val = .error er) :
    entry T (f + 1) .vlog σ (.ref i) (.ref i) = .error er := by
  simp only [entry]
  rw [if_neg hnp]
  simp [mkMono, hv]
  rfl

theorem entry_vsub_loglog (T : Transc α) (f : Nat) (σ σ1 σ2 : Store α)
    (i j : Nat) (p u : Operand α)
    (hl : isOp σ (.ref i) .log = true) (hr : isOp σ (.ref j) .log = true)
    (hs : entry T f .dsub σ (margO σ (.ref i)) (margO σ (.ref j)) =
      .ok (σ1, p))
    (hlog : entry T f .vlog σ1 p p = .ok (σ2, u)) :
    entry T (f + 1) .vsub σ (.ref i) (.ref j) = .ok (σ2, u) := by
  simp only [entry, isConstEq, hl, hr, Bool.and_self, if_true, if_false,
    Bool.false_eq_true, hs, bind_ok, hlog]

/-! ## The claims -/

/-- C1: the spec claims that after `differentiate` every shared node's
adjoint is the sum of all parents' contributions and that no node's
chain rule consumes its adjoint before every parent has contributed.
The code violates this: `grad` pops from the END of the queue (a LIFO
stack despite the docstring's breadth-first claim) and never re-processes
a node, so in `root = (w+1+3) + (w+1+5)` the shared interior node
`s = w+1` has its chain rule executed when only one parent has
contributed.  For every leaf value `a`, the run leaves `w.adj = 1.0`
although `root = 2a+10`, so the true derivative is `2` (the shared node
itself ends with the correct `adj = 2`, but too late: its chain had
already fired with `adj = 1`). -/
theorem c1_dfs_worklist_drops_parent_contribution (a : ℚ) :
    c1_graph a = .ok (c1s0 a, .ref 4)
    ∧ adjAt (c1_grad a) 0 = some (.const 1)
    ∧ adjAt (c1_grad a) 1 = some (.const 2)
    ∧ valAt (c1_grad a) 4 = some (2 * a + 10) := by
  have hb : c1_graph a = .ok (c1s0 a, .ref 4) := rfl
  refine ⟨hb, ?_⟩
  have hgd : c1_grad a = grad T0 12 (c1s0 a) 4 :=
    runRoot_ok T0 12 _ 4 _ hb
  have hd0 : reset_adj_all 9 (c1s0 a) 0 = c1s0 a :=
    reset_argsNone 8 (c1s0 a) (c1s0 a) 0 rfl rfl
  have hd1 : reset_adj_all 10 (c1s0 a) 1 = c1s0 a :=
    (reset_argsRC 9 (c1s0 a) (c1s0 a) 1 0 1 rfl rfl).trans hd0
  have hd2 : reset_adj_all 11 (c1s0 a) 2 = c1s0 a :=
    (reset_argsRC 10 (c1s0 a) (c1s0 a) 2 1 3 rfl rfl).trans hd1
  have hd3 : reset_adj_all 11 (c1s0 a) 3 = c1s0 a :=
    (reset_argsRC 10 (c1s0 a) (c1s0 a) 3 1 5 rfl rfl).trans hd1
  have hr : reset_adj_all 12 (c1s0 a) 4 = c1s0 a :=
    (reset_argsRR 11 (c1s0 a) (c1s0 a) 4 2 3 rfl rfl).trans
      (by rw [hd2, hd3])
  have hrun : grad T0 12 (c1s0 a) 4 =
      gradLoop T0 12 12 (c1st a (.const 0) (.const 0) (.const 0) (.const 0)
        (.const 1) false false false false true) [4] :=
    grad_run T0 12 _ _ _ 4 hr rfl
  have hc4 : chain T0 12 (c1st a (.const 0) (.const 0) (.const 0) (.const 0)
      (.const 1) false false false false true) 4 =
      .ok (c1st a (.const 0) (.const 0) (.const (0 + 1)) (.const (0 + 1))
        (.const 1) false false false false true) :=
    chain_add_vv T0 12 _ _ _ _ _ 4 2 3 (.const 0) (.const 1) (.const 0)
      (.const 1) (.const (0 + 1)) (.const (0 + 1)) rfl rfl rfl rfl rfl rfl
      rfl rfl rfl rfl
  have hl1 : gradLoop T0 12 12 (c1st a (.const 0) (.const 0) (.const 0)
      (.const 0) (.const 1) false false false false true) [4] =
      gradLoop T0 12 11 (c1st a (.const 0) (.const 0) (.const (0 + 1))
        (.const (0 + 1)) (.const 1) false false true true true) [2, 3] :=
    gradLoop_pop T0 12 11 _ _ _ _ _ 4 rfl hc4 rfl
  have hc3 : chain T0 12 (c1st a (.const 0) (.const 0) (.const (0 + 1))
      (.const (0 + 1)) (.const 1) false false true true true) 3 =
      .ok (c1st a (.const 0) (.const (0 + (0 + 1))) (.const (0 + 1))
        (.const (0 + 1)) (.const 1) false false true true true) :=
    chain_add_vf T0 12 _ _ _ 3 1 5 (.const 0) (.const (0 + 1))
      (.const (0 + (0 + 1))) rfl rfl rfl rfl rfl rfl
  have hl2 : gradLoop T0 12 11 (c1st a (.const 0) (.const 0) (.const (0 + 1))
      (.const (0 + 1)) (.const 1) false false true true true) [2, 3] =
      gradLoop T0 12 10 (c1st a (.const 0) (.const (0 + (0 + 1)))
        (.const (0 + 1)) (.const (0 + 1)) (.const 1) false true true true
        true) [2, 1] :=
    gradLoop_pop T0 12 10 _ _ _ _ _ 3 rfl hc3 rfl
  have hc1 : chain T0 12 (c1st a (.const 0) (.const (0 + (0 + 1)))
      (.const (0 + 1)) (.const (0 + 1)) (.const 1) false true true true
      true) 1 =
      .ok (c1st a (.const (0 + (0 + (0 + 1)))) (.const (0 + (0 + 1)))
        (.const (0 + 1)) (.const (0 + 1)) (.const 1) false true true true
        true) :=
    chain_add_vf T0 12 _ _ _ 1 0 1 (.const 0) (.const (0 + (0 + 1)))
      (.const (0 + (0 + (0 + 1)))) rfl rfl rfl rfl rfl rfl
  have hl3 : gradLoop T0 12 10 (c1st a (.const 0) (.const (0 + (0 + 1)))
      (.const (0 + 1)) (.const (0 + 1)) (.const 1) false true true true
      true) [2, 1] =
      gradLoop T0 12 9 (c1st a (.const (0 + (0 + (0 + 1))))
        (.const (0 + (0 + 1))) (.const (0 + 1)) (.const (0 + 1)) (.const 1)
        true true true true true) [2, 0] :=
    gradLoop_pop T0 12 9 _ _ _ _ _ 1 rfl hc1 rfl
  have hl4 : gradLoop T0 12 9 (c1st a (.const (0 + (0 + (0 + 1))))
      (.const (0 + (0 + 1))) (.const (0 + 1)) (.const (0 + 1)) (.const 1)
      true true true true true) [2, 0] =
      gradLoop T0 12 8 (c1st a (.const (0 + (0 + (0 + 1))))
        (.const (0 + (0 + 1))) (.const (0 + 1)) (.const (0 + 1)) (.const 1)
        true true true true true) [2] :=
    gradLoop_pop T0 12 8 _ _ _ _ _ 0 rfl (chain_var T0 12 _ 0 rfl) rfl
  have hc2 : chain T0 12 (c1st a (.const (0 + (0 + (0 + 1))))
      (.const (0 + (0 + 1))) (.const (0 + 1)) (.const (0 + 1)) (.const 1)
      true true true true true) 2 =
      .ok (c1st a (.const (0 + (0 + (0 + 1))))
        (.const (0 + (0 + 1) + (0 + 1))) (.const (0 + 1)) (.const (0 + 1))
        (.const 1) true true true true true) :=
    chain_add_vf T0 12 _ _ _ 2 1 3 (.const (0 + (0 + 1))) (.const (0 + 1))
      (.const (0 + (0 + 1) + (0 + 1))) rfl rfl rfl rfl rfl rfl
  have hl5 : gradLoop T0 12 8 (c1st a (.const (0 + (0 + (0 + 1))))
      (.const (0 + (0 + 1))) (.const (0 + 1)) (.const (0 + 1)) (.const 1)
      true true true true true) [2] =
      gradLoop T0 12 7 (c1st a (.const (0 + (0 + (0 + 1))))
        (.const (0 + (0 + 1) + (0 + 1))) (.const (0 + 1)) (.const (0 + 1))
        (.const 1) true true true true true) [] :=
    gradLoop_pop T0 12 7 _ _ _ _ _ 2 rfl hc2 rfl
  have hfin : c1_grad a = .ok (c1st a (.const (0 + (0 + (0 + 1))))
      (.const (0 + (0 + 1) + (0 + 1))) (.const (0 + 1)) (.const (0 + 1))
      (.const 1) true true true true true) := by
    rw [hgd, hrun, hl1, hl2, hl3, hl4, hl5, gradLoop_done]
  refine ⟨?_, ?_, ?_⟩
  · rw [hfin]
    show some (Operand.const ((0 : ℚ) + (0 + (0 + 1)))) = some (.const 1)
    norm_num
  · rw [hfin]
    show some (Operand.const ((0 : ℚ) + (0 + 1) + (0 + 1))) = some (.const 2)
    norm_num
  · rw [hfin]
    show some (a + 1 + 3 + (a + 1 + 5)) = some (2 * a + 10)
    exact congrArg some (by ring)

/-- C4: for every leaf value, `x + x` (the same node on both sides) is
rewritten by `v_add` to the node `x * 2.0` (an `OpMulVar`, not an
`OpAddVar`), and `differentiate` on that node leaves `x.adj == 2.0` (a
bare number, since `chain_vf` multiplies the two bare floats). -/
theorem c4_self_add_rewrites_to_double_and_adjoint_two (a : ℚ) :
    c4_build a = .ok ([⟨a, .const 0, .var, .leaf, false⟩,
      ⟨a * 2, .const 0, .mul, .bin (.ref 0) (.const 2), false⟩], .ref 1)
    ∧ adjAt (c4_grad a) 0 = some (.const 2) := by
  have hb : c4_build a = .ok ([⟨a, .const 0, .var, .leaf, false⟩,
      ⟨a * 2, .const 0, .mul, .bin (.ref 0) (.const 2), false⟩], .ref 1) := rfl
  refine ⟨hb, ?_⟩
  have hgd : c4_grad a = grad T0 12 [⟨a, .const 0, .var, .leaf, false⟩,
      ⟨a * 2, .const 0, .mul, .bin (.ref 0) (.const 2), false⟩] 1 :=
    runRoot_ok T0 12 _ 1 _ hb
  have hr1 : reset_adj_all 12 [(⟨a, .const 0, .var, .leaf, false⟩ : Node ℚ),
      ⟨a * 2, .const 0, .mul, .bin (.ref 0) (.const 2), false⟩] 1 =
      reset_adj_all 11 [⟨a, .const 0, .var, .leaf, false⟩,
      ⟨a * 2, .const 0, .mul, .bin (.ref 0) (.const 2), false⟩] 0 :=
    reset_argsRC 11 _ _ 1 0 2 rfl rfl
  have hr2 : reset_adj_all 11 [(⟨a, .const 0, .var, .leaf, false⟩ : Node ℚ),
      ⟨a * 2, .const 0, .mul, .bin (.ref 0) (.const 2), false⟩] 0 =
      [⟨a, .const 0, .var, .leaf, false⟩,
       ⟨a * 2, .const 0, .mul, .bin (.ref 0) (.const 2), false⟩] :=
    reset_argsNone 10 _ _ 0 rfl rfl
  have hrun : grad T0 12 [⟨a, .const 0, .var, .leaf, false⟩,
      ⟨a * 2, .const 0, .mul, .bin (.ref 0) (.const 2), false⟩] 1 =
      gradLoop T0 12 12 [⟨a, .const 0, .var, .leaf, false⟩,
      ⟨a * 2, .const 1, .mul, .bin (.ref 0) (.const 2), true⟩] [1] :=
    grad_run T0 12 _ _ _ 1 (hr1.trans hr2) rfl
  have hc1 : chain T0 12 [⟨a, .const 0, .var, .leaf, false⟩,
      ⟨a * 2, .const 1, .mul, .bin (.ref 0) (.const 2), true⟩] 1 =
      .ok [⟨a, .const (0 + 1 * 2), .var, .leaf, false⟩,
      ⟨a * 2, .const 1, .mul, .bin (.ref 0) (.const 2), true⟩] :=
    chain_mul_vf T0 12 _ _ _ _ 1 0 2 (.const 1) (.const (1 * 2)) (.const 0)
      (.const (0 + 1 * 2)) rfl rfl rfl rfl rfl rfl rfl
  have hl1 : gradLoop T0 12 12 [⟨a, .const 0, .var, .leaf, false⟩,
      ⟨a * 2, .const 1, .mul, .bin (.ref 0) (.const 2), true⟩] [1] =
      gradLoop T0 12 11 [⟨a, .const (0 + 1 * 2), .var, .leaf, true⟩,
      ⟨a * 2, .const 1, .mul, .bin (.ref 0) (.const 2), true⟩] [0] :=
    gradLoop_pop T0 12 11 _ _ _ _ _ 1 rfl hc1 rfl
  have hl2 : gradLoop T0 12 11 [⟨a, .const (0 + 1 * 2), .var, .leaf, true⟩,
      ⟨a * 2, .const 1, .mul, .bin (.ref 0) (.const 2), true⟩] [0] =
      gradLoop T0 12 10 [⟨a, .const (0 + 1 * 2), .var, .leaf, true⟩,
      ⟨a * 2, .const 1, .mul, .bin (.ref 0) (.const 2), true⟩] [] :=
    gradLoop_pop T0 12 10 _ _ _ _ _ 0 rfl (chain_var T0 12 _ 0 rfl) rfl
  rw [hgd, hrun, hl1, hl2, gradLoop_done]
  show some (Operand.const ((0 : ℚ) + 1 * 2)) = some (.const 2)
  norm_num

/-- C3: for all leaf values, `a*b + a*c` is rewritten by `v_add`'s
common-factor rule to `a*(b+c)` (node 6), structurally equal (by
`Var.__eq__`) to an independently built `a*(b+c)` (node 8); and after
`differentiate`, `a.adj` is the node `b+c` (value `b+c`), while `b.adj`
and `c.adj` are the node `a` (value `a`). -/
theorem c3_common_factor_extraction_and_adjoints (a b c : ℚ) :
    c3_graph a b c = .ok (c3s0 a b c, .ref 6, .ref 8)
    ∧ dynEq (c3s0 a b c) (.ref 6) (.ref 8) = true
    ∧ adjValAt (c3_grad a b c) 0 = some (b + c)
    ∧ adjValAt (c3_grad a b c) 1 = some a
    ∧ adjValAt (c3_grad a b c) 2 = some a := by
  have hb : c3_graph a b c = .ok (c3s0 a b c, .ref 6, .ref 8) := rfl
  have hmap : (c3_graph a b c).map (fun p => (p.1, p.2.1)) =
      .ok (c3s0 a b c, .ref 6) := by rw [hb]; rfl
  have hgd : c3_grad a b c = grad T0 12 (c3s0 a b c) 6 :=
    runRoot_ok T0 12 _ 6 _ hmap
  have e0 : reset_adj_all 11 (c3s0 a b c) 0 = c3s0 a b c :=
    reset_argsNone 10 (c3s0 a b c) (c3s0 a b c) 0 rfl rfl
  have e1 : reset_adj_all 10 (c3s0 a b c) 1 = c3s0 a b c :=
    reset_argsNone 9 (c3s0 a b c) (c3s0 a b c) 1 rfl rfl
  have e2 : reset_adj_all 10 (c3s0 a b c) 2 = c3s0 a b c :=
    reset_argsNone 9 (c3s0 a b c) (c3s0 a b c) 2 rfl rfl
  have e5 : reset_adj_all 11 (c3s0 a b c) 5 = c3s0 a b c :=
    (reset_argsRR 10 (c3s0 a b c) (c3s0 a b c) 5 1 2 rfl rfl).trans
      (by rw [e1, e2])
  have hr : reset_adj_all 12 (c3s0 a b c) 6 = c3s0 a b c :=
    (reset_argsRR 11 (c3s0 a b c) (c3s0 a b c) 6 0 5 rfl rfl).trans
      (by rw [e0, e5])
  have hrun : grad T0 12 (c3s0 a b c) 6 =
      gradLoop T0 12 12 (c3st a b c (.const 0) (.const 0) (.const 0)
        (.const 0) (.const 1) false false false false true) [6] :=
    grad_run T0 12 _ _ _ 6 hr rfl
  have hc6 : chain T0 12 (c3st a b c (.const 0) (.const 0) (.const 0)
      (.const 0) (.const 1) false false false false true) 6 =
      .ok (c3st a b c (.ref 5) (.const 0) (.const 0) (.ref 0) (.const 1)
        false false false false true) :=
    chain_mul_vv T0 12 (c3st a b c (.const 0) (.const 0) (.const 0)
        (.const 0) (.const 1) false false false false true) _ _ _ _ _ _
      6 0 5 (.const 1) (.ref 5) (.const 0) (.ref 5) (.const 1) (.ref 0)
      (.const 0) (.ref 0) rfl rfl rfl rfl rfl rfl rfl rfl rfl rfl rfl rfl
  have hl1 : gradLoop T0 12 12 (c3st a b c (.const 0) (.const 0) (.const 0)
      (.const 0) (.const 1) false false false false true) [6] =
      gradLoop T0 12 11 (c3st a b c (.ref 5) (.const 0) (.const 0) (.ref 0)
        (.const 1) true false false true true) [0, 5] :=
    gradLoop_pop T0 12 11 _ _ _ _ _ 6 rfl hc6 rfl
  have hc5 : chain T0 12 (c3st a b c (.ref 5) (.const 0) (.const 0) (.ref 0)
      (.const 1) true false false true true) 5 =
      .ok (c3st a b c (.ref 5) (.ref 0) (.ref 0) (.ref 0) (.const 1)
        true false false true true) :=
    chain_add_vv T0 12 (c3st a b c (.ref 5) (.const 0) (.const 0) (.ref 0)
        (.const 1) true false false true true) _ _ _ _ 5 1 2 (.const 0)
      (.ref 0) (.const 0) (.ref 0) (.ref 0) (.ref 0) rfl rfl rfl rfl rfl
      rfl rfl rfl rfl rfl
  have hl2 : gradLoop T0 12 11 (c3st a b c (.ref 5) (.const 0) (.const 0)
      (.ref 0) (.const 1) true false false true true) [0, 5] =
      gradLoop T0 12 10 (c3st a b c (.ref 5) (.ref 0) (.ref 0) (.ref 0)
        (.const 1) true true true true true) [0, 1, 2] :=
    gradLoop_pop T0 12 10 _ _ _ _ _ 5 rfl hc5 rfl
  have hl3 : gradLoop T0 12 10 (c3st a b c (.ref 5) (.ref 0) (.ref 0)
      (.ref 0) (.const 1) true true true true true) [0, 1, 2] =
      gradLoop T0 12 9 (c3st a b c (.ref 5) (.ref 0) (.ref 0) (.ref 0)
        (.const 1) true true true true true) [0, 1] :=
    gradLoop_pop T0 12 9 _ _ _ _ _ 2 rfl (chain_var T0 12 _ 2 rfl) rfl
  have hl4 : gradLoop T0 12 9 (c3st a b c (.ref 5) (.ref 0) (.ref 0)
      (.ref 0) (.const 1) true true true true true) [0, 1] =
      gradLoop T0 12 8 (c3st a b c (.ref 5) (.ref 0) (.ref 0) (.ref 0)
        (.const 1) true true true true true) [0] :=
    gradLoop_pop T0 12 8 _ _ _ _ _ 1 rfl (chain_var T0 12 _ 1 rfl) rfl
  have hl5 : gradLoop T0 12 8 (c3st a b c (.ref 5) (.ref 0) (.ref 0)
      (.ref 0) (.const 1) true true true true true) [0] =
      gradLoop T0 12 7 (c3st a b c (.ref 5) (.ref 0) (.ref 0) (.ref 0)
        (.const 1) true true true true true) [] :=
    gradLoop_pop T0 12 7 _ _ _ _ _ 0 rfl (chain_var T0 12 _ 0 rfl) rfl
  have hfin : c3_grad a b c = .ok (c3st a b c (.ref 5) (.ref 0) (.ref 0)
      (.ref 0) (.const 1) true true true true true) := by
    rw [hgd, hrun, hl1, hl2, hl3, hl4, hl5, gradLoop_done]
  refine ⟨hb, rfl, ?_, ?_, ?_⟩ <;> (rw [hfin]; rfl)

/-- C5: for `x = Var(2.0); y = Var(3.0); z = x ** y`, the forward value
is `8.0`, and after `differentiate(z)`, `x.adj.val == 3.0 * 2.0**2.0 ==
12.0` and `y.adj.val == 8.0 * log(2.0)` — stated for an arbitrary model
`lg` of `math.log` (the embedding keeps the logarithm's irrational value
symbolic), so in particular for the true natural logarithm. -/
theorem c5_pow_forward_and_adjoints (lg : ℚ → ℚ) :
    c5_build lg = .ok (c5st lg (.const 0) (.const 0) (.const 0)
      false false false 0, .ref 2)
    ∧ valAt (c5_grad lg) 2 = some 8
    ∧ adjValAt (c5_grad lg) 0 = some 12
    ∧ adjValAt (c5_grad lg) 1 = some (8 * lg 2) := by
  have hb : c5_build lg = .ok (c5st lg (.const 0) (.const 0) (.const 0)
      false false false 0, .ref 2) := rfl
  have hgd : c5_grad lg = grad (ratT lg) 12 (c5st lg (.const 0) (.const 0)
      (.const 0) false false false 0) 2 :=
    runRoot_ok (ratT lg) 12 _ 2 _ hb
  have e0 : reset_adj_all 11 (c5st lg (.const 0) (.const 0) (.const 0)
      false false false 0) 0 = c5st lg (.const 0) (.const 0) (.const 0)
      false false false 0 :=
    reset_argsNone 10 _ _ 0 rfl rfl
  have e1 : reset_adj_all 11 (c5st lg (.const 0) (.const 0) (.const 0)
      false false false 0) 1 = c5st lg (.const 0) (.const 0) (.const 0)
      false false false 0 :=
    reset_argsNone 10 _ _ 1 rfl rfl
  have hr : reset_adj_all 12 (c5st lg (.const 0) (.const 0) (.const 0)
      false false false 0) 2 = c5st lg (.const 0) (.const 0) (.const 0)
      false false false 0 :=
    (reset_argsRR 11 (c5st lg (.const 0) (.const 0) (.const 0)
      false false false 0) (c5st lg (.const 0) (.const 0) (.const 0)
      false false false 0) 2 0 1 rfl rfl).trans (by rw [e0, e1])
  have hrun : grad (ratT lg) 12 (c5st lg (.const 0) (.const 0) (.const 0)
      false false false 0) 2 =
      gradLoop (ratT lg) 12 12 (c5st lg (.const 0) (.const 0) (.const 1)
        false false true 0) [2] :=
    grad_run (ratT lg) 12 _ _ _ 2 hr rfl
  have hsub : ((3 : ℚ) - 1) = 2 := by norm_num
  have hden : ((3 : ℚ) - 1).den = 1 := by rw [hsub]; rfl
  have hcond : ¬((2 : ℚ) = 0 ∧ ((3 : ℚ) - 1).num < 0) := by
    intro h
    exact absurd h.1 (by norm_num)
  have hv3 : (ratT lg).pow ((2 : ℚ)) ((3 : ℚ) - 1) =
      .ok ((2 : ℚ) ^ ((3 : ℚ) - 1).num) := by
    simp only [ratT]
    rw [if_pos hden, if_neg hcond]
  have hpw : entry (ratT lg) 12 .dpow (c5st lg (.const 0) (.const 0)
      (.const 1) false false true 1) (.ref 0) (.ref 3) =
      .ok (c5st lg (.const 0) (.const 0) (.const 1) false false true 2,
        .ref 4) :=
    entry_dpow_rr_plain (ratT lg) 10 _ 0 3 _ rfl hv3
  have hc2 : chain (ratT lg) 12 (c5st lg (.const 0) (.const 0) (.const 1)
      false false true 0) 2 =
      .ok (c5st lg (.ref 5) (.ref 8) (.const 1) false false true 6) :=
    chain_pow_vv (ratT lg) 12
      (c5st lg (.const 0) (.const 0) (.const 1) false false true 0)
      (c5st lg (.const 0) (.const 0) (.const 1) false false true 0)
      (c5st lg (.const 0) (.const 0) (.const 1) false false true 1)
      (c5st lg (.const 0) (.const 0) (.const 1) false false true 2)
      (c5st lg (.const 0) (.const 0) (.const 1) false false true 3)
      (c5st lg (.const 0) (.const 0) (.const 1) false false true 3)
      (c5st lg (.ref 5) (.const 0) (.const 1) false false true 3)
      (c5st lg (.ref 5) (.const 0) (.const 1) false false true 4)
      (c5st lg (.ref 5) (.const 0) (.const 1) false false true 4)
      (c5st lg (.ref 5) (.const 0) (.const 1) false false true 5)
      (c5st lg (.ref 5) (.const 0) (.const 1) false false true 6)
      (c5st lg (.ref 5) (.const 0) (.const 1) false false true 6)
      (c5st lg (.ref 5) (.ref 8) (.const 1) false false true 6) 2 0 1
      (.const 1) (.ref 1) (.ref 3) (.ref 4) (.ref 5) (.const 0) (.ref 5)
      (.const 1) (.ref 6) (.ref 6) (.ref 7) (.ref 8) (.const 0) (.ref 8)
      rfl rfl rfl rfl rfl hpw rfl rfl rfl rfl rfl rfl rfl rfl rfl rfl rfl rfl
  have hl1 : gradLoop (ratT lg) 12 12 (c5st lg (.const 0) (.const 0)
      (.const 1) false false true 0) [2] =
      gradLoop (ratT lg) 12 11 (c5st lg (.ref 5) (.ref 8) (.const 1)
        true true true 6) [0, 1] :=
    gradLoop_pop (ratT lg) 12 11 _ _ _ _ _ 2 rfl hc2 rfl
  have hl2 : gradLoop (ratT lg) 12 11 (c5st lg (.ref 5) (.ref 8) (.const 1)
      true true true 6) [0, 1] =
      gradLoop (ratT lg) 12 10 (c5st lg (.ref 5) (.ref 8) (.const 1)
        true true true 6) [0] :=
    gradLoop_pop (ratT lg) 12 10 _ _ _ _ _ 1 rfl
      (chain_var (ratT lg) 12 _ 1 rfl) rfl
  have hl3 : gradLoop (ratT lg) 12 10 (c5st lg (.ref 5) (.ref 8) (.const 1)
      true true true 6) [0] =
      gradLoop (ratT lg) 12 9 (c5st lg (.ref 5) (.ref 8) (.const 1)
        true true true 6) [] :=
    gradLoop_pop (ratT lg) 12 9 _ _ _ _ _ 0 rfl
      (chain_var (ratT lg) 12 _ 0 rfl) rfl
  have hfin : c5_grad lg = .ok (c5st lg (.ref 5) (.ref 8) (.const 1)
      true true true 6) := by
    rw [hgd, hrun, hl1, hl2, hl3, gradLoop_done]
  have h8 : (2 : ℚ) ^ (3 : ℚ).num = 8 := by
    norm_num [Rat.num_ofNat]
  refine ⟨hb, ?_, ?_, ?_⟩
  · rw [hfin]
    show some ((2 : ℚ) ^ (3 : ℚ).num) = some 8
    exact congrArg some h8
  · rw [hfin]
    show some (3 * (2 : ℚ) ^ ((3 : ℚ) - 1).num) = some 12
    exact congrArg some (by norm_num [Rat.num_ofNat])
  · rw [hfin]
    show some ((2 : ℚ) ^ (3 : ℚ).num * lg 2) = some (8 * lg 2)
    rw [h8]

/-- Evaluation of the C2 run: the final store with the two results,
`log(9.0) - log(3.0)` (node 5) and the comparison `log(9.0 / 3.0)`
(node 7). -/
theorem c2_run_eval : c2_run = .ok (c2s, .ref 5, .ref 7) := by
  have hlog6 : T0.log ((9 : ℚ) - 3) = .ok 0 := by
    simp [T0, ratT, show (0 : ℚ) < 9 - 3 by norm_num]
  have hlog3 : T0.log ((9 : ℚ) / 3) = .ok 0 := by
    simp [T0, ratT, show (0 : ℚ) < 9 / 3 by norm_num]
  have hv : entry T0 11 .vlog (c2s.take 5) (.ref 4) (.ref 4) =
      .ok (c2s.take 6, .ref 5) :=
    entry_vlog_plain T0 10 (c2s.take 5) 4 0 (by decide) hlog6
  have hsub : v_sub T0 12 (c2s.take 4) (.ref 2) (.ref 3) =
      .ok (c2s.take 6, .ref 5) :=
    entry_vsub_loglog T0 11 (c2s.take 4) (c2s.take 5) (c2s.take 6) 2 3
      (.ref 4) (.ref 5) rfl rfl rfl hv
  have hdiv : v_div T0 12 (c2s.take 6) (.ref 0) (.ref 1) =
      .ok (c2s.take 7, .ref 6) := rfl
  have hlq : logV T0 12 (c2s.take 7) (.ref 6) = .ok (c2s, .ref 7) :=
    entry_vlog_plain T0 11 (c2s.take 7) 6 0 (by decide) hlog3
  show (do
      let (σ5, d) ← v_sub T0 12 (c2s.take 4) (.ref 2) (.ref 3)
      let (σ6, q) ← v_div T0 12 σ5 (.ref 0) (.ref 1)
      let (σ7, lq) ← logV T0 12 σ6 q
      (.ok (σ7, d, lq) : Except Err (Store ℚ × Operand ℚ × Operand ℚ))) =
    .ok (c2s, .ref 5, .ref 7)
  simp only [hsub, bind_ok, hdiv, hlq]

/-- C2: the claim is refuted by the code.  For `x = Var(9.0)`,
`y = Var(3.0)`, the subtraction entry point applied to `log(x)` and
`log(y)` returns a log node whose argument is the *subtraction* node
`x - y` with forward value `6.0` — not the quotient: the independently
built `log(x / y)` has a `div` argument with forward value `3.0`, and
the two results are structurally unequal (`v_sub` line 520 computes
`log(l.arg - r.arg)` where the comment and the spec say `log(x/y)`). -/
theorem c2_log_sub_builds_log_of_difference :
    c2_run = .ok (c2s, .ref 5, .ref 7)
    ∧ (getN c2s 5).op = .log
    ∧ (getN c2s 5).shape = .mono (.ref 4)
    ∧ (getN c2s 4).op = .sub
    ∧ (getN c2s 4).val = 6
    ∧ (getN c2s 7).shape = .mono (.ref 6)
    ∧ (getN c2s 6).op = .div
    ∧ (getN c2s 6).val = 3
    ∧ dynEq c2s (.ref 5) (.ref 7) = false := by
  refine ⟨c2_run_eval, rfl, rfl, rfl, ?_, rfl, rfl, ?_, rfl⟩
  · show (9 : ℚ) - 3 = 6
    norm_num
  · show (9 : ℚ) / 3 = 3
    norm_num

/-- Evaluation of the C7 `grad` run: `OpPowVar.chain_vv` (line 733) calls
`log(self.larg)` while propagating adjoints; the base is `-1.0`, so the
run raises the math domain error — at `grad` time, not at construction
time. -/
theorem c7_grad_eval : c7_grad = .error .domainError := by
  have hb : c7_build = .ok (c7st (.const 0) (.const 0) (.const 0)
      false false false 0, .ref 2) := rfl
  have hgd : c7_grad = grad T0 12 (c7st (.const 0) (.const 0) (.const 0)
      false false false 0) 2 :=
    runRoot_ok T0 12 _ 2 _ hb
  have e0 : reset_adj_all 11 (c7st (.const 0) (.const 0) (.const 0)
      false false false 0) 0 = c7st (.const 0) (.const 0) (.const 0)
      false false false 0 :=
    reset_argsNone 10 _ _ 0 rfl rfl
  have e1 : reset_adj_all 11 (c7st (.const 0) (.const 0) (.const 0)
      false false false 0) 1 = c7st (.const 0) (.const 0) (.const 0)
      false false false 0 :=
    reset_argsNone 10 _ _ 1 rfl rfl
  have hr : reset_adj_all 12 (c7st (.const 0) (.const 0) (.const 0)
      false false false 0) 2 = c7st (.const 0) (.const 0) (.const 0)
      false false false 0 :=
    (reset_argsRR 11 (c7st (.const 0) (.const 0) (.const 0)
      false false false 0) (c7st (.const 0) (.const 0) (.const 0)
      false false false 0) 2 0 1 rfl rfl).trans (by rw [e0, e1])
  have hrun : grad T0 12 (c7st (.const 0) (.const 0) (.const 0)
      false false false 0) 2 =
      gradLoop T0 12 12 (c7st (.const 0) (.const 0) (.const 1)
        false false true 0) [2] :=
    grad_run T0 12 _ _ _ 2 hr rfl
  have hsub : ((3 : ℚ) - 1) = 2 := by norm_num
  have hden : ((3 : ℚ) - 1).den = 1 := by rw [hsub]; rfl
  have hcond : ¬((-1 : ℚ) = 0 ∧ ((3 : ℚ) - 1).num < 0) := by
    intro h
    exact absurd h.1 (by norm_num)
  have hv3 : T0.pow ((-1 : ℚ)) ((3 : ℚ) - 1) =
      .ok ((-1 : ℚ) ^ ((3 : ℚ) - 1).num) := by
    simp only [T0, ratT]
    rw [if_pos hden, if_neg hcond]
  have hpw : entry T0 12 .dpow (c7st (.const 0) (.const 0) (.const 1)
      false false true 1) (.ref 0) (.ref 3) =
      .ok (c7st (.const 0) (.const 0) (.const 1) false false true 2,
        .ref 4) :=
    entry_dpow_rr_plain T0 10 _ 0 3 _ rfl hv3
  have hc2 : chain T0 12 (c7st (.const 0) (.const 0) (.const 1)
      false false true 0) 2 = .error .domainError :=
    chain_pow_vv_logErr T0 12
      (c7st (.const 0) (.const 0) (.const 1) false false true 0)
      (c7st (.const 0) (.const 0) (.const 1) false false true 0)
      (c7st (.const 0) (.const 0) (.const 1) false false true 1)
      (c7st (.const 0) (.const 0) (.const 1) false false true 2)
      (c7st (.const 0) (.const 0) (.const 1) false false true 3)
      (c7st (.const 0) (.const 0) (.const 1) false false true 3)
      (c7st (.ref 5) (.const 0) (.const 1) false false true 3)
      (c7st (.ref 5) (.const 0) (.const 1) false false true 4)
      (c7st (.ref 5) (.const 0) (.const 1) false false true 4)
      2 0 1
      (.const 1) (.ref 1) (.ref 3) (.ref 4) (.ref 5) (.const 0) (.ref 5)
      (.const 1) (.ref 6) (.ref 6) .domainError
      rfl rfl rfl rfl rfl hpw rfl rfl rfl rfl rfl rfl rfl rfl
  have hl1 : gradLoop T0 12 12 (c7st (.const 0) (.const 0) (.const 1)
      false false true 0) [2] = .error .domainError :=
    gradLoop_pop_err T0 12 11 _ [2] 2 .domainError rfl hc2
  rw [hgd, hrun, hl1]

/-- C7 counterexample: the graph `x = Var(-1.0); y = Var(3.0);
z = x ** y` is constructed without any error (Python float power is
exact here, `(-1.0) ** 3.0 == -1.0`), yet `z.grad()` raises the math
domain error — refuting the claim that a successfully constructed graph
can never see a domain error during differentiation. -/
theorem c7_counterexample_grad_raises_after_clean_build :
    c7_build = .ok (c7st (.const 0) (.const 0) (.const 0) false false false 0,
      .ref 2)
    ∧ c7_grad = .error .domainError :=
  ⟨rfl, c7_grad_eval⟩

/-- C7 (amended): domain errors are raised eagerly for every *forward*
value (log of non-positive, division by zero, invalid power), but
adjoint propagation is not error-free: `OpPowVar.chain_vv` evaluates
`log(self.larg)` at `grad` time, so a power node with a non-positive
base builds cleanly (forward value `(-1.0) ** 3.0 = -1.0`) and then
raises the math domain error inside `grad` — the same error `log`
raises on the base directly. -/
theorem c7_pow_chain_rule_logs_base_at_grad_time :
    c7_build = .ok (c7st (.const 0) (.const 0) (.const 0) false false false 0,
      .ref 2)
    ∧ (getN (c7st (.const 0) (.const 0) (.const 0) false false false 0) 2).val
      = -1
    ∧ logV T0 12 (c7st (.const 0) (.const 0) (.const 0) false false false 0)
      (.ref 0) = .error .domainError
    ∧ c7_grad = .error .domainError := by
  refine ⟨rfl, ?_, rfl, c7_grad_eval⟩
  show (-1 : ℚ) ^ (3 : ℚ).num = -1
  norm_num [Rat.num_ofNat]

/-- C8 counterexample: on the four-node diamond `x = Var(7.0);
l = x + 1.0; m = x + 2.0; root = l + m`, the reset phase started at the
root performs five `reset_adj_all` calls — more than the number of
nodes, because the shared leaf `x` is reached and reset once per parent:
there is no reset-visited guard of any kind in `Var.reset_adj_all`
(lines 94-106). -/
theorem c8_counterexample_reset_revisits_shared_leaf :
    (c8_build.map (fun p => (reset_count p.1 12 3, p.1.length))) =
      .ok (5, 4) := rfl

/-- C8 (amended): `Var.reset_adj_all` has no visited guard, so the reset
traversal visits a node once per path from the root (five visits on the
four-node diamond, and exponentially many on deep diamond chains), not
O(graph size); the redundant resets are harmless, though: resetting the
dirtied diamond clears every adjoint and every `chain_executed` flag,
and resetting again is the identity. -/
theorem c8_reset_unguarded_but_idempotent :
    reset_count c8_dirty 12 3 = 5
    ∧ c8_dirty.length = 4
    ∧ reset_adj_all 12 c8_dirty 3 = c8_clean
    ∧ reset_adj_all 12 c8_clean 3 = c8_clean :=
  ⟨rfl, rfl, rfl, rfl⟩

/-- C9 counterexample: for `L = log(Var(2.0))`, the addition entry point
applied to `L` and `L` returns the `mul` node `L * 2.0`, not a log node:
the self-equality rewrite `l == r → l * 2.0` (line 452) fires before the
log-combination rule (line 454) ever runs. -/
theorem c9_counterexample_log_self_add_gives_mul :
    c9_run = .ok (c9s, .ref 2)
    ∧ (getN c9s 2).op = .mul
    ∧ ¬((getN c9s 2).op = .log) :=
  ⟨rfl, rfl, by decide⟩

/-- C9 (amended): in `v_add` the self-equality rewrite precedes the
log-combination rule, so for any log node `L` (over any leaf) `L + L`
rewrites to `L * 2.0` — a `mul` node referencing `L` — rather than to
`log(x*x)`. -/
theorem c9_self_equality_precedes_log_combination (a w : ℚ) :
    v_add T0 12 [⟨a, .const 0, .var, .leaf, false⟩,
        ⟨w, .const 0, .log, .mono (.ref 0), false⟩] (.ref 1) (.ref 1) =
      .ok ([⟨a, .const 0, .var, .leaf, false⟩,
        ⟨w, .const 0, .log, .mono (.ref 0), false⟩,
        ⟨w * 2, .const 0, .mul, .bin (.ref 1) (.const 2), false⟩],
        .ref 2) := rfl

/-- C6 counterexample: the addition entry point called with the two bare
floats `0.0` and `5.0` does not raise `Exception("invalid type of
argument")`: the rewrite `l == 0 → r` (line 443) fires before the
constructor's operand-kind check, and the call returns the bare float
`5.0`. -/
theorem c6_counterexample_zero_add_float_returns :
    v_add T0 12 ([] : Store ℚ) (.const 0) (.const 5) = .ok ([], .const 5) :=
  rfl

/-- C6 (amended): `log` of a leaf with any non-positive value raises the
math domain error at construction time, and an arithmetic entry point
applied to two bare floats raises `Exception("invalid type of
argument")` only when no zero-operand rewrite fires first (e.g. `2.0`
and `3.0`). -/
theorem c6_log_nonpositive_raises_and_two_floats_invalid (c : ℚ)
    (hc : c ≤ 0) :
    logV T0 12 [⟨c, .const 0, .var, .leaf, false⟩] (.ref 0) =
      .error .domainError
    ∧ v_add T0 12 ([] : Store ℚ) (.const 2) (.const 3) =
      .error .invalidOperand := by
  refine ⟨?_, rfl⟩
  have hv : T0.log c = .error .domainError := by
    simp only [T0, ratT]
    rw [if_neg (not_lt.mpr hc)]
  exact entry_vlog_err T0 11 [⟨c, .const 0, .var, .leaf, false⟩] 0
    .domainError (fun h => Op.noConfusion h) hv

/-- Witness for the C6 theorem at the concrete leaf value `-1.0`. -/
theorem c6_witness_at_minus_one :
    ((-1 : ℚ) ≤ 0)
    ∧ (logV T0 12 [⟨-1, .const 0, .var, .leaf, false⟩] (.ref 0) =
        .error .domainError
      ∧ v_add T0 12 ([] : Store ℚ) (.const 2) (.const 3) =
        .error .invalidOperand) :=
  ⟨by norm_num,
    c6_log_nonpositive_raises_and_two_floats_invalid (-1) (by norm_num)⟩

theorem vmul_r0 (T : Transc ℚ) (f : Nat) (σ : Store ℚ) (i : Nat) :
    entry T (f + 1) .vmul σ (.ref i) (.const 0) = .ok (σ, .const 0) := by
  simp [entry, isConstEq]

theorem vmul_l0 (T : Transc ℚ) (f : Nat) (σ : Store ℚ) (r : Operand ℚ) :
    entry T (f + 1) .vmul σ (.const 0) r = .ok (σ, .const 0) := by
  simp [entry, isConstEq]

theorem vpow_r0 (T : Transc ℚ) (f : Nat) (σ : Store ℚ) (i : Nat) :
    entry T (f + 1) .vpow σ (.ref i) (.const 0) = .ok (σ, .const 1) := by
  simp [entry, isConstEq]

theorem vdiv_l0 (T : Transc ℚ) (f : Nat) (σ : Store ℚ) (i : Nat) :
    entry T (f + 1) .vdiv σ (.const 0) (.ref i) = .ok (σ, .const 0) := by
  simp [entry, isConstEq]

theorem vsub_self_var (T : Transc ℚ) (f : Nat) (σ : Store ℚ) (i : Nat)
    (a : ℚ) (r : Operand ℚ) (e : Bool)
    (hn : getN σ i = ⟨a, r, .var, .leaf, e⟩) :
    entry T (f + 1) .vsub σ (.ref i) (.ref i) = .ok (σ, .const 0) := by
  have hlog : isOp σ (.ref i) .log = false := by simp [isOp, hn]
  have hmul : isOp σ (.ref i) .mul = false := by simp [isOp, hn]
  have hde : dynEq σ (.ref i) (.ref i) = true := by
    simp [dynEq, dynEqF, hn]
  simp [entry, isConstEq, hlog, hmul, hde]

/-- C10 counterexample: for a *log* node `L`, `L - L` does not return the
bare float `0.0`: the log-combination rule fires first, rewrites the
arguments to `x - x → 0.0`, and then `log` receives the bare float and
crashes reading `.val` on it, the `AttributeError` — so the claimed bare
numeric result does not hold for every node. -/
theorem c10_counterexample_log_self_sub_crashes :
    c10_logsub = .error .attributeError := rfl

/-- C10 (amended): for every *leaf* node `x`, the entry points `x * 0.0`,
`0.0 * x`, `x ** 0.0`, `0.0 / x` and `x - x` each return a bare numeric
constant (`0.0` or `1.0`) and allocate nothing, so a caller cannot
assume the result of an arithmetic entry point is a node; on non-leaf
operands an earlier rewrite may preempt these collapses (the log case
above even crashes). -/
theorem c10_entry_points_collapse_to_bare_floats (σ : Store ℚ) (i : Nat)
    (a : ℚ) (r : Operand ℚ) (e : Bool)
    (hn : getN σ i = ⟨a, r, .var, .leaf, e⟩) :
    v_mul T0 12 σ (.ref i) (.const 0) = .ok (σ, .const 0)
    ∧ v_mul T0 12 σ (.const 0) (.ref i) = .ok (σ, .const 0)
    ∧ v_pow T0 12 σ (.ref i) (.const 0) = .ok (σ, .const 1)
    ∧ v_div T0 12 σ (.const 0) (.ref i) = .ok (σ, .const 0)
    ∧ v_sub T0 12 σ (.ref i) (.ref i) = .ok (σ, .const 0) :=
  ⟨vmul_r0 T0 11 σ i, vmul_l0 T0 11 σ (.ref i), vpow_r0 T0 11 σ i,
   vdiv_l0 T0 11 σ i, vsub_self_var T0 11 σ i a r e hn⟩

/-- Witness for the C10 theorem on the one-leaf store `[Var(2.0)]`. -/
theorem c10_witness_at_leaf_two :
    getN [(⟨2, .const 0, .var, .leaf, false⟩ : Node ℚ)] 0 =
      ⟨2, .const 0, .var, .leaf, false⟩
    ∧ (v_mul T0 12 [(⟨2, .const 0, .var, .leaf, false⟩ : Node ℚ)] (.ref 0)
        (.const 0) = .ok ([⟨2, .const 0, .var, .leaf, false⟩], .const 0)
      ∧ v_mul T0 12 [(⟨2, .const 0, .var, .leaf, false⟩ : Node ℚ)] (.const 0)
        (.ref 0) = .ok ([⟨2, .const 0, .var, .leaf, false⟩], .const 0)
      ∧ v_pow T0 12 [(⟨2, .const 0, .var, .leaf, false⟩ : Node ℚ)] (.ref 0)
        (.const 0) = .ok ([⟨2, .const 0, .var, .leaf, false⟩], .const 1)
      ∧ v_div T0 12 [(⟨2, .const 0, .var, .leaf, false⟩ : Node ℚ)] (.const 0)
        (.ref 0) = .ok ([⟨2, .const 0, .var, .leaf, false⟩], .const 0)
      ∧ v_sub T0 12 [(⟨2, .const 0, .var, .leaf, false⟩ : Node ℚ)] (.ref 0)
        (.ref 0) = .ok ([⟨2, .const 0, .var, .leaf, false⟩], .const 0)) :=
  ⟨rfl, c10_entry_points_collapse_to_bare_floats
    [⟨2, .const 0, .var, .leaf, false⟩] 0 2 (.const 0) false rfl⟩

end Pykyadet
